import Mathlib

set_option maxRecDepth 4000

/-!
Shallow embedding of `src/routes/analysis.py` (ARQV30 Enhanced v2.0 analysis
routes).  The module consists of the `UltraRobustAnalyzer` class (a linear
pipeline: collect → multi-AI synthesis → consolidate → score, with an
emergency fallback) and the Flask route handlers.

Modelling conventions:
* Python/JSON values are the inductive `Val`; Python dicts are
  insertion-ordered association lists with string keys (`Obj`), with
  Python's update-in-place-or-append assignment semantics (`Obj.set`).
* Python numbers (int and float) are modelled as `Rat`; float special
  values (inf/nan) and underscore digit grouping in numeric literals are
  outside the model (no claim touches them).
* Fallible Python code returns `Except PyErr`; a raised exception is
  `.error msg` where `msg` stands for `str(e)`.
* Collaborator services (attachment service, WebSailor research agent,
  Gemini client, HuggingFace client, database manager, Flask session and
  the wall clock) are out-of-repository boundaries; they are modelled by an
  `Oracle` record of outcomes, and every collaborator invocation is logged
  as a `Call` so that "collaborator X is never invoked" is provable.
* `time.sleep` is a no-op in the model; `time.time()` is modelled as 0 and
  `datetime.utcnow().isoformat()` as `Oracle.now` (no claim depends on
  wall-clock values).
* Lines 48-50 of the source contain a stray, wrongly indented line
  (`if analysis_result and db_manager.available:`) that leaves the `try:`
  of `generate_ultra_comprehensive_analysis` without a body, and lines
  980-985 contain an orphaned `except` block inside an `elif`; both are
  manifest editing slips (CPython refuses to parse the file).  The
  embedding follows the evident control flow of the surrounding code (the
  `try`/`except` → fallback structure that is literally present at lines
  48 and 91-93, and the swallowed-persistence-error structure at lines
  953-979); the stray fragments are ignored.  This reading is recorded
  here once and in the doc comments of the two affected definitions.
-/

/-- A Python/JSON-style runtime value. -/
inductive Val where
  | vStr  : String → Val
  | vNum  : Rat → Val
  | vBool : Bool → Val
  | vNull : Val
  | vList : List Val → Val
  | vObj  : List (String × Val) → Val
deriving Repr

/-- A Python dict with string keys: insertion-ordered association list. -/
abbrev Obj := List (String × Val)

/-- Error message of a raised Python exception (`str(e)`). -/
abbrev PyErr := String

/-- Embeds `d.get(k)`: first binding of `k`, if any. -/
def get? (o : Obj) (k : String) : Option Val :=
  match o.find? (fun p => p.1 == k) with
  | some p => some p.2
  | none => none

/-- Embeds `d.get(k, dflt)`. -/
def getD (o : Obj) (k : String) (dflt : Val) : Val :=
  match get? o k with
  | some v => v
  | none => dflt

/-- Embeds `d[k] = v`: replace in place if the key exists, else append. -/
def Obj.set : Obj → String → Val → Obj
  | [], k, v => [(k, v)]
  | (k', v') :: rest, k, v =>
      if k' == k then (k, v) :: rest else (k', v') :: Obj.set rest k v

/-- Python truthiness of a value. -/
def truthy : Val → Bool
  | .vStr s => !s.isEmpty
  | .vNum q => q != 0
  | .vBool b => b
  | .vNull => false
  | .vList l => !l.isEmpty
  | .vObj o => !o.isEmpty

/-- Python `len(v)`; raises `TypeError` on values without a length. -/
def pyLen : Val → Except PyErr Nat
  | .vStr s => .ok s.length
  | .vList l => .ok l.length
  | .vObj o => .ok o.length
  | _ => .error "TypeError: object of type has no len()"

/-- Decimal rendering of a rational (used for `str(int)`; non-integer and
non-scalar renderings below are documented abstractions — no claim
depends on them). -/
def ratStr (q : Rat) : String :=
  if q.den == 1 then toString q.num else toString q.num ++ "/" ++ toString q.den

/-- Python `str(v)` as used inside f-strings.  Exact for strings, integers,
booleans and `None` (the only cases the claims exercise); list/dict
renderings are abstracted to fixed placeholders. -/
def pyStr : Val → String
  | .vStr s => s
  | .vNum q => ratStr q
  | .vBool b => cond b "True" "False"
  | .vNull => "None"
  | .vList _ => "[...]"
  | .vObj _ => "(dict)"

/-- Lower-casing of one character: ASCII plus the uppercase accented
letters of the Portuguese alphabet (the only letters occurring in the
segment keywords).  Python's `str.lower()` restricted to this alphabet. -/
def pyCharLower (c : Char) : Char :=
  if 'A' ≤ c ∧ c ≤ 'Z' then Char.ofNat (c.toNat + 32)
  else if c = 'Á' then 'á' else if c = 'À' then 'à' else if c = 'Â' then 'â'
  else if c = 'Ã' then 'ã' else if c = 'É' then 'é' else if c = 'Ê' then 'ê'
  else if c = 'Í' then 'í' else if c = 'Ó' then 'ó' else if c = 'Ô' then 'ô'
  else if c = 'Õ' then 'õ' else if c = 'Ú' then 'ú' else if c = 'Ü' then 'ü'
  else if c = 'Ç' then 'ç' else c

/-- Embeds `s.lower()` (alphabet as in `pyCharLower`). -/
def pyLower (s : String) : String := String.mk (s.data.map pyCharLower)

/-- Does the character list start with the pattern? -/
def startsWithClist : List Char → List Char → Bool
  | _, [] => true
  | [], _ :: _ => false
  | c :: cs, p :: ps => c == p && startsWithClist cs ps

/-- Substring occurrence on character lists. -/
def containsClist : List Char → List Char → Bool
  | [], pat => pat.isEmpty
  | c :: cs, pat => startsWithClist (c :: cs) pat || containsClist cs pat

/-- Python's substring test `pat in s`. -/
def strContains (s pat : String) : Bool := containsClist s.data pat.data

/-- Python `int()` truncation toward zero of a rational. -/
def pyTrunc (q : Rat) : Int :=
  let m : Nat := q.num.natAbs / q.den
  if q.num < 0 then -(m : Int) else (m : Int)

/-- Helper for `f"{n:,}"`: regroup a digit string (given reversed) in
blocks of three separated by commas. -/
def commaChunks : List Char → List Char
  | a :: b :: c :: d :: rest => a :: b :: c :: ',' :: commaChunks (d :: rest)
  | l => l

/-- Python `f"{n:,}"` for an integer: thousands separators. -/
def fmtComma (n : Int) : String :=
  let ds := (toString n.natAbs).data
  let grouped := (commaChunks ds.reverse).reverse
  (if n < 0 then "-" else "") ++ String.mk grouped

/-- Digits to a natural number. -/
def digitsToNat (l : List Char) : Nat :=
  l.foldl (fun a c => a * 10 + (c.toNat - 48)) 0

/-- Parse the mantissa-and-exponent tail of a Python float literal:
`digits [. digits] [(e|E) [sign] digits]`, at least one mantissa digit. -/
def parseMantissa (cs : List Char) : Option Rat :=
  let (ip, r1) := cs.span Char.isDigit
  let (fp, r2) :=
    match r1 with
    | '.' :: r => r.span Char.isDigit
    | _ => ([], r1)
  if ip.isEmpty && fp.isEmpty then none
  else
    let mant : Rat := (digitsToNat (ip ++ fp) : Rat) / ((10 : Rat) ^ fp.length)
    match r2 with
    | [] => some mant
    | 'e' :: r3 | 'E' :: r3 =>
        let (sgn, r4) :=
          match r3 with
          | '+' :: r => (1, r)
          | '-' :: r => (-1, r)
          | r => ((1 : Int), r)
        let (ed, r5) := r4.span Char.isDigit
        if ed.isEmpty || !r5.isEmpty then none
        else some (mant * (10 : Rat) ^ (sgn * (digitsToNat ed : Int)))
    | _ => none

/-- Python `float(s)` on a string: optional surrounding whitespace,
optional sign, then a decimal literal.  `none` models a raised
`ValueError`.  (inf/nan and underscore grouping are outside the model.) -/
def stripWs (l : List Char) : List Char :=
  ((l.dropWhile Char.isWhitespace).reverse.dropWhile Char.isWhitespace).reverse

def pyFloat (s : String) : Option Rat :=
  match stripWs s.data with
  | '+' :: cs => parseMantissa cs
  | '-' :: cs => (parseMantissa cs).map (fun q => -q)
  | cs => parseMantissa cs

/-- A logged collaborator invocation. -/
inductive Call where
  | getAttachments : Call
  | research : String → Call
  | gemini : Call
  | hfAnalyze : Call
  | dbCreate : Call
deriving Repr, DecidableEq

/-- Outcomes of the external collaborator services for one request (the
out-of-repository boundary): attachment service, WebSailor agent, Gemini
client, HuggingFace client, database manager, Flask session, wall clock. -/
structure Oracle where
  /-- Embeds `attachment_service.get_session_attachments(session_id)`. -/
  attachments : Except PyErr (List Obj)
  /-- Embeds `websailor_agent.is_available()`. -/
  websailorAvailable : Bool
  /-- Embeds `websailor_agent.navigate_and_research(query, ...)`, per query. -/
  research : String → Except PyErr Obj
  /-- Truthiness of the imported `gemini_client` object. -/
  geminiPresent : Bool
  /-- Embeds `gemini_client.generate_ultra_detailed_analysis(...)`. -/
  gemini : Except PyErr Obj
  /-- Embeds `HuggingFaceClient().is_available()`. -/
  hfAvailable : Bool
  /-- Embeds `huggingface_client.analyze_market_strategy(data)` (any raise in the
  surrounding `try` block is `.error`). -/
  hfAnalyze : Except PyErr Val
  /-- Embeds `db_manager.available`. -/
  dbAvailable : Bool
  /-- Embeds `db_manager.create_analysis(...)`: record, falsy result, or raise. -/
  dbCreate : Except PyErr (Option Obj)
  /-- Embeds `session.get('session_id')` from the Flask session. -/
  flaskSession : Option Val
  /-- Embeds `datetime.utcnow().isoformat()`. -/
  now : String

/-- Python `v * r` for a float literal `r`: numbers and booleans multiply,
anything else (in particular a string times a float) raises `TypeError`. -/
def pyMul (v : Val) (r : Rat) : Except PyErr Rat :=
  match v with
  | .vNum q => .ok (q * r)
  | .vBool b => .ok ((if b then (1 : Rat) else 0) * r)
  | _ => .error "TypeError: cannot multiply sequence by non-int of type float"

/-- Python `int(v)`: truncates numbers, parses integer-literal strings
(raising `ValueError` otherwise), converts booleans, raises `TypeError`
on other values. -/
def pyIntOf (v : Val) : Except PyErr Int :=
  match v with
  | .vNum q => .ok (pyTrunc q)
  | .vBool b => .ok (if b then 1 else 0)
  | .vStr s =>
      match s.trim.data with
      | '+' :: cs =>
          if !cs.isEmpty && cs.all Char.isDigit then .ok (digitsToNat cs : Int)
          else .error "ValueError: invalid literal for int()"
      | '-' :: cs =>
          if !cs.isEmpty && cs.all Char.isDigit then .ok (-(digitsToNat cs : Int))
          else .error "ValueError: invalid literal for int()"
      | cs =>
          if !cs.isEmpty && cs.all Char.isDigit then .ok (digitsToNat cs : Int)
          else .error "ValueError: invalid literal for int()"
  | _ => .error "TypeError: int() argument"

/-- Embeds `f"R$ {int(x):,}"`. -/
def fmtReais (n : Int) : String := "R$ " ++ fmtComma n

/-- Embeds `_generate_ultra_comprehensive_real_queries` (lines 311-334): the fixed
templated query list (10 entries, `[:12]` keeps all of them). -/
def _generate_ultra_comprehensive_real_queries (data : Obj) : List String :=
  let segmento := pyStr (getD data "segmento" (.vStr ""))
  let produto := pyStr (getD data "produto" (.vStr ""))
  let queries := [
    "dados reais mercado " ++ segmento ++ " Brasil 2024 estatísticas crescimento",
    "principais empresas " ++ segmento ++ " brasileiras líderes market share",
    "consumidor " ++ segmento ++ " pesquisa comportamento dados demográficos",
    "preços " ++ segmento ++ " Brasil ticket médio benchmarks setor",
    produto ++ " demanda Brasil dados consumo estatísticas",
    "vendas " ++ produto ++ " estratégias cases sucesso brasileiros",
    produto ++ " investimentos startups funding venture capital",
    "oportunidades " ++ segmento ++ " mercado brasileiro gaps nichos",
    "inovações " ++ segmento ++ " tecnologias emergentes Brasil",
    "regulamentações " ++ segmento ++ " mudanças legais impactos Brasil"]
  queries.take 12

def splitWsAux : List Char → List Char → List String
  | [], cur => if cur.isEmpty then [] else [String.mk cur.reverse]
  | c :: cs, cur =>
      if c.isWhitespace then
        if cur.isEmpty then splitWsAux cs []
        else String.mk cur.reverse :: splitWsAux cs []
      else splitWsAux cs (c :: cur)

/-- Python `s.split()`: split on whitespace runs, dropping empties. -/
def pySplitWs (s : String) : List String := splitWsAux s.data []

/-- Embeds `_analyze_attachment_content` (lines 336-343). -/
def _analyze_attachment_content (content : String) (content_type : String) : Obj :=
  let words := pySplitWs content
  [("content_length", .vNum content.length),
   ("word_count", .vNum words.length),
   ("type", .vStr content_type),
   ("key_concepts", .vList ((words.take 10).map Val.vStr))]

/-- Canned health-segment market-intelligence record (lines 352-361). -/
def healthIntel : Obj :=
  [("market_size", .vStr "R$ 280 bilhões (mercado de saúde brasileiro)"),
   ("growth_rate", .vStr "12-18% ao ano (pós-pandemia)"),
   ("key_trends", .vList [.vStr "Telemedicina", .vStr "IA em diagnósticos",
      .vStr "Prontuário eletrônico", .vStr "Healthtechs", .vStr "Medicina preventiva"]),
   ("opportunities", .vList [.vStr "Telemedicina rural", .vStr "IA diagnóstica",
      .vStr "Gestão hospitalar digital"]),
   ("threats", .vList [.vStr "Regulamentação CFM", .vStr "Concorrência internacional",
      .vStr "Custos tecnológicos"]),
   ("market_maturity", .vStr "Crescimento acelerado"),
   ("entry_barriers", .vStr "Altas (regulamentação)"),
   ("success_factors", .vList [.vStr "Conformidade regulatória",
      .vStr "Tecnologia avançada", .vStr "Rede médica"])]

/-- Canned digital-segment market-intelligence record (lines 363-372). -/
def digitalIntel : Obj :=
  [("market_size", .vStr "R$ 185 bilhões (e-commerce brasileiro 2024)"),
   ("growth_rate", .vStr "27% ao ano"),
   ("key_trends", .vList [.vStr "Mobile commerce", .vStr "PIX", .vStr "Social commerce",
      .vStr "Live commerce", .vStr "Marketplace"]),
   ("opportunities", .vList [.vStr "Interior brasileiro", .vStr "B2B digital",
      .vStr "Omnichannel"]),
   ("threats", .vList [.vStr "Regulamentação tributária", .vStr "Logística",
      .vStr "Concorrência global"]),
   ("market_maturity", .vStr "Crescimento rápido"),
   ("entry_barriers", .vStr "Médias"),
   ("success_factors", .vList [.vStr "Logística eficiente", .vStr "Marketing digital",
      .vStr "UX superior"])]

/-- Canned generic market-intelligence record (lines 374-383). -/
def genericIntel : Obj :=
  [("market_size", .vStr "Mercado em expansão no Brasil"),
   ("growth_rate", .vStr "15-25% ao ano (média setores digitais)"),
   ("key_trends", .vList [.vStr "Digitalização", .vStr "Automação", .vStr "Personalização",
      .vStr "IA", .vStr "Sustentabilidade"]),
   ("opportunities", .vList [.vStr "Nichos inexplorados", .vStr "Novas tecnologias",
      .vStr "Mudanças comportamentais"]),
   ("threats", .vList [.vStr "Regulamentações", .vStr "Concorrência internacional",
      .vStr "Mudanças econômicas"]),
   ("market_maturity", .vStr "Crescimento"),
   ("entry_barriers", .vStr "Médias"),
   ("success_factors", .vList [.vStr "Inovação", .vStr "Qualidade", .vStr "Atendimento",
      .vStr "Preço competitivo"])]

/-- Embeds `_gather_ultra_real_market_intelligence` (lines 345-383):
`data.get('segmento', '').lower()` then substring dispatch.  A non-string
`segmento` value has no `.lower()` (AttributeError). -/
def _gather_ultra_real_market_intelligence (data : Obj) : Except PyErr Obj := do
  let s ← match getD data "segmento" (.vStr "") with
    | .vStr s => pure s
    | _ => throw "AttributeError: object has no attribute lower"
  let segmento := pyLower s
  if strContains segmento "medicina" || strContains segmento "saúde" then
    pure healthIntel
  else if strContains segmento "digital" || strContains segmento "online" then
    pure digitalIntel
  else
    pure genericIntel

/-- Embeds `_perform_deep_real_competitor_analysis` (lines 385-418). -/
def _perform_deep_real_competitor_analysis (data : Obj) : Obj :=
  let seg := pyStr (getD data "segmento" (.vStr "brasileiro"))
  [("direct_competitors", .vList [
     .vObj [("nome", .vStr ("Líder do mercado " ++ seg)),
            ("market_share", .vStr "28-35%"),
            ("strengths", .vList [.vStr "Marca consolidada",
               .vStr "Rede de distribuição nacional", .vStr "Capital abundante"]),
            ("weaknesses", .vList [.vStr "Inovação lenta",
               .vStr "Atendimento impessoal", .vStr "Preços elevados"]),
            ("strategy", .vStr "Liderança por diferenciação e marca")],
     .vObj [("nome", .vStr ("Challenger " ++ seg)),
            ("market_share", .vStr "15-22%"),
            ("strengths", .vList [.vStr "Preço competitivo", .vStr "Agilidade",
               .vStr "Inovação tecnológica"]),
            ("weaknesses", .vList [.vStr "Marca em construção",
               .vStr "Recursos limitados", .vStr "Cobertura regional"]),
            ("strategy", .vStr "Liderança por custo e inovação")]]),
   ("indirect_competitors", .vList [.vStr "Soluções alternativas",
      .vStr "Produtos substitutos", .vStr "DIY/Faça você mesmo"]),
   ("competitive_gaps", .vList [.vStr "Atendimento personalizado premium",
      .vStr "Soluções híbridas online/offline",
      .vStr "Integração com tecnologias emergentes",
      .vStr "Foco em nichos específicos"]),
   ("market_positioning", .vStr "Oportunidade para posicionamento premium com foco em inovação e atendimento"),
   ("competitive_advantages", .vList [.vStr "Tecnologia mais avançada",
      .vStr "Atendimento superior personalizado",
      .vStr "Flexibilidade de soluções",
      .vStr "Agilidade de implementação"])]

/-- Embeds `_analyze_real_market_trends` (lines 420-475): keyword dispatch like the
market-intelligence lookup, then a fixed record. -/
def _analyze_real_market_trends (data : Obj) : Except PyErr Obj := do
  let s ← match getD data "segmento" (.vStr "") with
    | .vStr s => pure s
    | _ => throw "AttributeError: object has no attribute lower"
  let segmento := pyLower s
  let (emerging, declining) :=
    if strContains segmento "medicina" || strContains segmento "saúde" then
      ([Val.vStr "Telemedicina permanente (regulamentada pelo CFM)",
        Val.vStr "IA em diagnósticos médicos",
        Val.vStr "Wearables para monitoramento contínuo",
        Val.vStr "Medicina personalizada baseada em genética"],
       [Val.vStr "Consultas presenciais exclusivas", Val.vStr "Prontuários físicos"])
    else if strContains segmento "digital" || strContains segmento "online" then
      ([Val.vStr "Social commerce e live commerce",
        Val.vStr "PIX como padrão de pagamento",
        Val.vStr "IA para personalização de experiência",
        Val.vStr "Sustentabilidade em e-commerce"],
       [Val.vStr "E-commerce desktop-only", Val.vStr "Pagamentos tradicionais exclusivos"])
    else
      ([Val.vStr "Inteligência Artificial aplicada ao negócio",
        Val.vStr "Sustentabilidade e ESG como diferencial",
        Val.vStr "Experiência do cliente omnichannel",
        Val.vStr "Automação de processos críticos"],
       [Val.vStr "Soluções puramente offline",
        Val.vStr "Modelos de negócio tradicionais sem inovação"])
  pure [("emerging_trends", .vList emerging),
    ("declining_trends", .vList declining),
    ("future_predictions", .vList [
       .vStr ("Crescimento de 35-50% no segmento " ++
              pyStr (getD data "segmento" (.vStr "digital")) ++ " nos próximos 2 anos"),
       .vStr "Consolidação do mercado com fusões e aquisições",
       .vStr "Entrada de players internacionais via parcerias locais",
       .vStr "Regulamentação mais específica do setor"]),
    ("impact_analysis", .vStr "Tendências favorecem empresas inovadoras, ágeis e com foco no cliente"),
    ("adoption_timeline", .vObj [
       ("short_term", .vStr "IA básica, automação simples, pagamentos digitais"),
       ("medium_term", .vStr "Integração completa omnichannel, personalização avançada"),
       ("long_term", .vStr "Transformação digital completa, novos modelos de negócio")])]

/-- Embeds `_generate_ultra_exclusive_real_insights` (lines 477-507): the fixed
20-item insight list, interpolating counters from the collected data.
`len(...get('sources', []))` raises on a sized-less value. -/
def _generate_ultra_exclusive_real_insights (comprehensive_data : Obj)
    (ai_analyses : Obj) : Except PyErr (List Val) := do
  let nSources ← pyLen (getD comprehensive_data "sources" (.vList []))
  let tcl := pyStr (getD comprehensive_data "total_content_length" (.vNum 0))
  let rds := pyStr (getD comprehensive_data "real_data_sources" (.vNum 0))
  pure [
    .vStr ("🔍 Análise baseada em " ++ toString nSources ++ " fontes REAIS verificadas de mercado"),
    .vStr ("📊 Processamento de " ++ tcl ++ " caracteres de dados REAIS"),
    .vStr ("🧠 Análise com " ++ toString ai_analyses.length ++ " sistemas de IA diferentes para máxima precisão REAL"),
    .vStr "🚀 Mercado apresenta oportunidades REAIS de crescimento acelerado nos próximos 18-24 meses",
    .vStr "💡 Diferenciação pela inovação tecnológica será o principal fator de sucesso REAL",
    .vStr "🎯 Personalização da experiência do cliente é crítica para retenção REAL",
    .vStr "📈 Investimento em marketing digital deve representar 18-28% da receita para competitividade REAL",
    .vStr "🔄 Automação de processos pode reduzir custos operacionais em até 35% comprovadamente",
    .vStr "🌐 Presença omnichannel é essencial para competitividade no mercado brasileiro REAL",
    .vStr "⚡ Velocidade de implementação será vantagem competitiva decisiva nos próximos 12 meses",
    .vStr "🛡️ Construção de marca forte é investimento de longo prazo essencial no Brasil",
    .vStr "📱 Mobile-first approach é obrigatório para alcançar público-alvo brasileiro",
    .vStr "🤝 Parcerias estratégicas podem acelerar crescimento em 45-60% comprovadamente",
    .vStr "📊 Métricas de performance devem ser monitoradas semanalmente para otimização REAL",
    .vStr "🎨 Design e UX superiores podem justificar premium de até 25% no mercado brasileiro",
    .vStr ("🔥 " ++ rds ++ " fontes REAIS analisadas garantem precisão máxima"),
    .vStr "💰 ROI médio de 300-500% é alcançável com implementação correta das estratégias",
    .vStr "🎯 Segmentação ultra-específica aumenta conversão em 40-70% comprovadamente",
    .vStr "🚀 Automação de vendas pode aumentar produtividade em 200-400% no primeiro ano",
    .vStr "📈 Dados REAIS indicam oportunidade de crescimento 3x superior à média do mercado"]

/-- Embeds `f"R$ {int(v * a):,} - R$ {int(v * b):,}"` for the investment ranges. -/
def investRange (v : Val) (a b : Rat) : Except PyErr String := do
  let x ← pyMul v a
  let y ← pyMul v b
  pure (fmtReais (pyTrunc x) ++ " - " ++ fmtReais (pyTrunc y))

/-- Embeds `_create_complete_real_implementation_plan` (lines 509-573).  Note that
it reads the raw `objetivo_receita` request field (default `100000`), not
the normalized `objetivo_receita_float` the route handler stores; with a
string value the `objetivo_receita * 0.15` multiplications raise
`TypeError`. -/
def _create_complete_real_implementation_plan (data : Obj) : Except PyErr Obj := do
  let segmento := pyStr (getD data "segmento" (.vStr "Negócios"))
  let objetivo_receita := getD data "objetivo_receita" (.vNum 100000)
  let r1 ← investRange objetivo_receita (15/100) (25/100)
  let r2 ← investRange objetivo_receita (20/100) (35/100)
  let r3 ← investRange objetivo_receita (25/100) (45/100)
  pure [
    ("fase_1_fundacao_real", .vObj [
      ("duracao", .vStr "45 dias"),
      ("objetivos", .vList [.vStr "Estruturação completa baseada em dados REAIS",
         .vStr "Definição de processos otimizados", .vStr "Setup tecnológico avançado"]),
      ("atividades", .vList [
         .vStr ("Análise detalhada da situação atual em " ++ segmento),
         .vStr "Definição de objetivos SMART baseados em benchmarks REAIS",
         .vStr "Estruturação da equipe com perfis específicos",
         .vStr "Setup de ferramentas e sistemas integrados"]),
      ("investimento_estimado", .vStr r1),
      ("resultados_esperados", .vList [
         .vStr "Base sólida estabelecida com dados REAIS",
         .vStr "Processos definidos e otimizados"])]),
    ("fase_2_lancamento_real", .vObj [
      ("duracao", .vStr "75 dias"),
      ("objetivos", .vList [.vStr "Lançamento estratégico no mercado",
         .vStr "Primeiras vendas com margem otimizada",
         .vStr "Ajustes baseados em dados REAIS"]),
      ("atividades", .vList [
         .vStr "Desenvolvimento de materiais de marketing baseados em pesquisa REAL",
         .vStr "Lançamento de campanhas digitais segmentadas",
         .vStr "Início das operações comerciais otimizadas",
         .vStr "Monitoramento e otimização contínua com dados REAIS"]),
      ("investimento_estimado", .vStr r2),
      ("resultados_esperados", .vList [
         .vStr "Primeiras vendas realizadas com margem superior a 40%",
         .vStr "Feedback do mercado coletado e analisado"])]),
    ("fase_3_crescimento_real", .vObj [
      ("duracao", .vStr "120 dias"),
      ("objetivos", .vList [.vStr "Escalonamento baseado em dados REAIS",
         .vStr "Otimização contínua", .vStr "Expansão estratégica"]),
      ("atividades", .vList [
         .vStr "Otimização de campanhas baseada em dados REAIS",
         .vStr "Expansão de canais com ROI comprovado",
         .vStr "Automação de processos críticos",
         .vStr "Análise de resultados e ajustes estratégicos"]),
      ("investimento_estimado", .vStr r3),
      ("resultados_esperados", .vList [
         .vStr "Crescimento sustentável de 25-40% ao mês",
         .vStr "ROI positivo e crescente"])])]

/-- Embeds `f"R$ {int(v * a):,}"`. -/
def investAmount (v : Val) (a : Rat) : Except PyErr String := do
  let x ← pyMul v a
  pure (fmtReais (pyTrunc x))

/-- Embeds `_create_advanced_real_success_metrics` (lines 575-648). -/
def _create_advanced_real_success_metrics (data : Obj) : Except PyErr Obj := do
  let objetivo_receita := getD data "objetivo_receita" (.vNum 100000)
  let orcamento_marketing := getD data "orcamento_marketing" (.vNum 20000)
  let receitaMeta ← pyIntOf objetivo_receita
  let ticketMeta ← pyIntOf (getD data "preco" (.vNum 2500))
  let cac ← investAmount orcamento_marketing (25/100)
  let cacBench ← investRange orcamento_marketing (15/100) (35/100)
  let ltv ← investAmount objetivo_receita (15/10)
  let ltvBench ← investRange objetivo_receita (8/10) 2
  pure [
    ("kpis_financeiros_reais", .vObj [
      ("receita_mensal", .vObj [("meta", .vStr (fmtReais receitaMeta)),
        ("atual", .vStr "R$ 0"),
        ("crescimento_esperado", .vStr "35-50%/mês baseado em dados REAIS")]),
      ("margem_lucro", .vObj [("meta", .vStr "45-55%"), ("atual", .vStr "0%"),
        ("benchmark_setor", .vStr "30-40% (dados REAIS do setor)")]),
      ("roi_marketing", .vObj [("meta", .vStr "400-600%"), ("atual", .vStr "0%"),
        ("benchmark_setor", .vStr "250-450% (dados REAIS)")]),
      ("ticket_medio", .vObj [("meta", .vStr (fmtReais ticketMeta)),
        ("atual", .vStr "R$ 0"),
        ("crescimento_esperado", .vStr "20-30%/trimestre")])]),
    ("kpis_operacionais_reais", .vObj [
      ("taxa_conversao", .vObj [("meta", .vStr "6-8%"), ("atual", .vStr "0%"),
        ("benchmark_setor", .vStr "3-6% (dados REAIS)")]),
      ("custo_aquisicao", .vObj [("meta", .vStr cac), ("atual", .vStr "R$ 0"),
        ("benchmark_setor", .vStr cacBench)]),
      ("lifetime_value", .vObj [("meta", .vStr ltv), ("atual", .vStr "R$ 0"),
        ("benchmark_setor", .vStr ltvBench)]),
      ("churn_rate", .vObj [("meta", .vStr "3-5%"), ("atual", .vStr "0%"),
        ("benchmark_setor", .vStr "8-12% (dados REAIS)")])]),
    ("kpis_marketing_reais", .vObj [
      ("reach_mensal", .vObj [("meta", .vStr "150.000-250.000"), ("atual", .vStr "0"),
        ("crescimento_esperado", .vStr "60-80%/mês")]),
      ("engagement_rate", .vObj [("meta", .vStr "10-15%"), ("atual", .vStr "0%"),
        ("benchmark_setor", .vStr "4-8% (dados REAIS)")]),
      ("leads_qualificados", .vObj [("meta", .vStr "800-1200/mês"), ("atual", .vStr "0"),
        ("crescimento_esperado", .vStr "120-150%/mês")]),
      ("share_of_voice", .vObj [("meta", .vStr "18-25%"), ("atual", .vStr "0%"),
        ("benchmark_setor", .vStr "6-15% (dados REAIS)")])])]

/-- Embeds `_create_real_365_day_timeline` (lines 650-696). -/
def _create_real_365_day_timeline (data : Obj) : Except PyErr Obj := do
  let objetivo_receita := getD data "objetivo_receita" (.vNum 100000)
  let i1 ← investAmount objetivo_receita (6/10)
  let r1 ← investAmount objetivo_receita (3/10)
  let i2 ← investAmount objetivo_receita (8/10)
  let r2 ← investAmount objetivo_receita (12/10)
  let i3 ← investAmount objetivo_receita 1
  let r3 ← investAmount objetivo_receita (25/10)
  let i4 ← investAmount objetivo_receita (12/10)
  let r4 ← investAmount objetivo_receita 4
  pure [
    ("trimestre_1_real", .vObj [
      ("foco", .vStr "Fundação e Estruturação REAL"),
      ("marcos", .vList [.vStr "Setup completo baseado em dados REAIS",
        .vStr "Primeira venda com margem superior a 40%",
        .vStr "Equipe formada e treinada"]),
      ("investimento", .vStr i1), ("receita_esperada", .vStr r1)]),
    ("trimestre_2_real", .vObj [
      ("foco", .vStr "Crescimento e Otimização REAL"),
      ("marcos", .vList [.vStr "200+ clientes ativos",
        .vStr "ROI positivo sustentável",
        .vStr "Processos automatizados funcionando"]),
      ("investimento", .vStr i2), ("receita_esperada", .vStr r2)]),
    ("trimestre_3_real", .vObj [
      ("foco", .vStr "Escalonamento e Expansão REAL"),
      ("marcos", .vList [.vStr "800+ clientes ativos",
        .vStr "Novos produtos/serviços lançados",
        .vStr "Expansão geográfica iniciada"]),
      ("investimento", .vStr i3), ("receita_esperada", .vStr r3)]),
    ("trimestre_4_real", .vObj [
      ("foco", .vStr "Consolidação e Inovação REAL"),
      ("marcos", .vList [.vStr "1500+ clientes ativos",
        .vStr "Liderança regional estabelecida",
        .vStr "Novos mercados penetrados"]),
      ("investimento", .vStr i4), ("receita_esperada", .vStr r4)])]

/-- Embeds `_create_real_monitoring_system` (lines 698-725). -/
def _create_real_monitoring_system (data : Obj) : Except PyErr Obj := do
  let cacAlert ← investAmount (getD data "orcamento_marketing" (.vNum 20000)) (4/10)
  pure [
    ("dashboards_reais", .vList [
      .vStr "Dashboard Financeiro REAL (atualização diária automática)",
      .vStr "Dashboard de Marketing REAL (atualização em tempo real)",
      .vStr "Dashboard Operacional REAL (atualização semanal)",
      .vStr "Dashboard Estratégico REAL (atualização mensal)"]),
    ("alertas_reais", .vList [
      .vStr "ROI abaixo de 300% - Alerta crítico REAL",
      .vStr "Taxa de conversão abaixo de 4% - Alerta médio REAL",
      .vStr ("Custo de aquisição acima de " ++ cacAlert ++ " - Alerta alto REAL"),
      .vStr "Churn rate acima de 8% - Alerta crítico REAL"]),
    ("relatorios_reais", .vList [
      .vStr "Relatório semanal de performance com dados REAIS",
      .vStr "Relatório mensal de resultados e otimizações",
      .vStr "Relatório trimestral estratégico com projeções",
      .vStr "Relatório anual de crescimento e expansão"]),
    ("otimizacoes_reais", .vList [
      .vStr "A/B testing contínuo em campanhas com dados REAIS",
      .vStr "Otimização de funil de vendas baseada em comportamento REAL",
      .vStr "Melhoria contínua de processos com métricas REAIS",
      .vStr "Análise preditiva de tendências com IA"])]

/-- Embeds `_generate_basic_real_gemini_analysis` (lines 727-760): the local
"basic analysis" substituted when the Gemini collaborator fails. -/
def _generate_basic_real_gemini_analysis (data : Obj) : Obj :=
  let segB := pyStr (getD data "segmento" (.vStr "Brasileiro"))
  let segN := pyStr (getD data "segmento" (.vStr "negócios"))
  [("avatar_ultra_detalhado", .vObj [
     ("nome_ficticio", .vStr ("Profissional " ++ segB ++ " Real")),
     ("perfil_demografico", .vObj [
        ("idade", .vStr "28-48 anos - faixa de maior poder aquisitivo REAL"),
        ("renda", .vStr "R$ 8.000 - R$ 35.000 - classe média alta brasileira REAL"),
        ("escolaridade", .vStr "Superior completo - 78% têm graduação (dados REAIS)"),
        ("localizacao", .vStr "São Paulo, Rio de Janeiro, Minas Gerais, Sul (dados REAIS)")]),
     ("dores_viscerais", .vList [
        .vStr ("Trabalhar excessivamente em " ++ segN ++ " sem ver crescimento proporcional"),
        .vStr "Sentir-se sempre correndo atrás da concorrência brasileira",
        .vStr "Ver competidores menores crescendo mais rapidamente",
        .vStr "Não conseguir se desconectar do trabalho nem nos finais de semana"]),
     ("desejos_secretos", .vList [
        .vStr ("Ser reconhecido como autoridade no mercado brasileiro de " ++ segN),
        .vStr "Ter um negócio que funcione sem presença constante",
        .vStr "Ganhar dinheiro de forma passiva com sistemas REAIS",
        .vStr "Ter liberdade total de horários e localização"])]),
   ("escopo_posicionamento", .vObj [
     ("posicionamento_mercado",
      .vStr ("Solução premium REAL para profissionais de " ++ segN ++ " no Brasil")),
     ("proposta_valor_unica",
      .vStr "Transforme seu negócio com metodologia comprovada e dados REAIS do mercado brasileiro"),
     ("diferenciais_competitivos", .vList [
        .vStr "Metodologia baseada em dados REAIS do mercado brasileiro",
        .vStr "Suporte personalizado com especialistas do setor",
        .vStr "Resultados mensuráveis e garantidos"])])]

/-- Embeds `_generate_basic_real_analysis` (lines 762-812): the fuller local basic
analysis used by the consolidator when no Gemini entry exists, and as the
base of the emergency fallback. -/
def _generate_basic_real_analysis (data : Obj) : Obj :=
  let segB := pyStr (getD data "segmento" (.vStr "Brasileiro"))
  let segN := pyStr (getD data "segmento" (.vStr "negócios"))
  let segNg := pyStr (getD data "segmento" (.vStr "negócio"))
  let segCr := pyStr (getD data "segmento" (.vStr "crescimento"))
  [("avatar_ultra_detalhado", .vObj [
     ("nome_ficticio", .vStr ("Empreendedor " ++ segB ++ " Real")),
     ("perfil_demografico", .vObj [
        ("idade", .vStr "30-50 anos - faixa de maior maturidade profissional REAL"),
        ("renda", .vStr "R$ 10.000 - R$ 40.000 - classe média alta consolidada REAL"),
        ("escolaridade", .vStr "Superior completo + pós-graduação (dados REAIS)"),
        ("localizacao", .vStr "Grandes centros urbanos brasileiros (dados REAIS)")]),
     ("dores_viscerais", .vList [
        .vStr ("Trabalhar excessivamente em " ++ segN ++ " sem ver crescimento proporcional nos resultados"),
        .vStr "Sentir-se sempre correndo atrás da concorrência, nunca conseguindo ficar à frente",
        .vStr "Ver competidores menores crescendo mais rapidamente com menos recursos",
        .vStr "Não conseguir se desconectar do trabalho, mesmo nos momentos de descanso",
        .vStr "Viver com medo constante de que tudo pode desmoronar a qualquer momento"]),
     ("desejos_secretos", .vList [
        .vStr ("Ser reconhecido como uma autoridade respeitada no mercado brasileiro de " ++ segN),
        .vStr "Ter um negócio que funcione perfeitamente sem sua presença constante",
        .vStr "Ganhar dinheiro de forma passiva através de sistemas automatizados REAIS",
        .vStr "Ser convidado para palestrar em grandes eventos do setor",
        .vStr "Ter liberdade total de horários, localização e decisões estratégicas"])]),
   ("escopo_posicionamento", .vObj [
     ("posicionamento_mercado",
      .vStr ("Solução premium REAL para profissionais de " ++ segN ++
             " que querem resultados rápidos e sustentáveis")),
     ("proposta_valor_unica",
      .vStr "Transforme seu negócio com metodologia comprovada, dados REAIS e suporte especializado"),
     ("diferenciais_competitivos", .vList [
        .vStr "Metodologia exclusiva baseada em dados REAIS do mercado brasileiro",
        .vStr "Suporte personalizado e contínuo de especialistas do setor",
        .vStr "Resultados mensuráveis e garantidos com métricas REAIS"])]),
   ("estrategia_palavras_chave", .vObj [
     ("palavras_primarias", .vList [
        .vStr segNg, .vStr "estratégia", .vStr "marketing", .vStr "crescimento",
        .vStr "Brasil", .vStr "brasileiro", .vStr "mercado", .vStr "dados",
        .vStr "resultados"]),
     ("palavras_secundarias", .vList [
        .vStr "vendas", .vStr "digital", .vStr "online", .vStr "consultoria",
        .vStr "ROI", .vStr "automação", .vStr "otimização", .vStr "conversão",
        .vStr "leads"]),
     ("palavras_cauda_longa", .vList [
        .vStr ("como crescer no mercado brasileiro de " ++ segN),
        .vStr "estratégias de marketing digital com dados reais",
        .vStr ("consultoria especializada em " ++ segCr ++ " no Brasil")])])]

/-- Embeds `_perform_cross_ai_real_analysis` (lines 814-828): fixed record. -/
def _perform_cross_ai_real_analysis (_ai_analyses : Obj) : Obj :=
  [("consensus_points_real", .vList [
     .vStr "Mercado brasileiro em crescimento acelerado com oportunidades REAIS",
     .vStr "Necessidade crítica de diferenciação clara e baseada em dados",
     .vStr "Importância fundamental do marketing digital com ROI mensurável"]),
   ("divergent_points_real", .vList [
     .vStr "Estratégias de precificação variam entre modelos premium e acessível",
     .vStr "Prioridades de implementação diferem entre crescimento rápido vs. sustentável"]),
   ("confidence_score_real", .vNum (925/10)),
   ("recommendation_real",
    .vStr "Focar em pontos de consenso REAIS para máxima assertividade e resultados mensuráveis")]

/-- The six section names checked by the quality scorer (lines 836-839). -/
def required_sections : List String :=
  ["avatar_ultra_detalhado", "escopo", "estrategia_palavras_chave",
   "insights_exclusivos_ultra", "plano_implementacao_completo",
   "metricas_sucesso_avancadas"]

/-- Embeds `section in analysis and analysis[section]`. -/
def sectionPresent (analysis : Obj) (s : String) : Bool :=
  match get? analysis s with
  | some v => truthy v
  | none => false

/-- Embeds `_calculate_ultra_quality_score` (lines 830-860).  `len()` of the
`insights_exclusivos_ultra` value raises `TypeError` when that value has
no length.  Scores are rationals (Python floats abstracted; every addend
is nonnegative and exactly mirrored, including the `6.67` literal). -/
def _calculate_ultra_quality_score (analysis : Obj) : Except PyErr Rat := do
  let score0 : Rat := required_sections.foldl
    (fun sc s => if sectionPresent analysis s then sc + 667/100 else sc) 0
  let n ← pyLen (getD analysis "insights_exclusivos_ultra" (.vList []))
  let score1 := score0 +
    (if n ≥ 15 then (30 : Rat) else if n ≥ 10 then 20 else if n ≥ 5 then 10 else 0)
  let score2 := score1 + (if (get? analysis "pesquisa_web_detalhada").isSome then (15 : Rat) else 0)
  let score3 := score2 + (if (get? analysis "inteligencia_mercado_ultra").isSome then (15 : Rat) else 0)
  pure (min score3 100)

/-- The ten section names checked by the completeness scorer (lines 867-872). -/
def sections_to_check : List String :=
  ["avatar_ultra_detalhado", "escopo", "estrategia_palavras_chave",
   "insights_exclusivos_ultra", "plano_implementacao_completo",
   "metricas_sucesso_avancadas", "cronograma_365_dias", "sistema_monitoramento",
   "inteligencia_mercado_ultra", "analise_concorrencia_ultra"]

/-- Embeds `_calculate_completeness_score` (lines 862-878). -/
def _calculate_completeness_score (analysis : Obj) : Rat :=
  let completed : Nat := sections_to_check.countP (fun s => sectionPresent analysis s)
  ((completed : Rat) / (sections_to_check.length : Rat)) * 100

/-- The emergency metadata block (lines 896-906). -/
def emergencyMeta (error : PyErr) (now : String) : Obj :=
  [("processing_time_seconds", .vNum 0),
   ("analysis_engine", .vStr "Emergency Fallback Ultra REAL"),
   ("generated_at", .vStr now),
   ("quality_score", .vNum 35),
   ("completeness_score", .vNum 25),
   ("error", .vStr error),
   ("recommendation", .vStr "Execute nova análise com configuração completa das APIs REAIS"),
   ("real_data_guarantee", .vBool false),
   ("emergency_mode", .vBool true)]

/-- The emergency insight list (lines 886-894), containing the literal
error message. -/
def emergencyInsights (data : Obj) (error : PyErr) : List Val :=
  [.vStr "⚠️ Análise gerada em modo de emergência REAL",
   .vStr ("🔧 Erro detectado: " ++ error),
   .vStr "🔄 Recomenda-se executar nova análise com APIs configuradas",
   .vStr "📊 Sistema detectou necessidade de análise mais profunda REAL",
   .vStr "✅ Dados básicos REAIS de mercado foram preservados",
   .vStr ("🇧🇷 Mercado brasileiro de " ++ pyStr (getD data "segmento" (.vStr "negócios")) ++
          " apresenta oportunidades REAIS"),
   .vStr "💰 ROI de 300-500% é alcançável com implementação correta"]

/-- Embeds `_generate_emergency_ultra_real_fallback` (lines 880-908): the basic
analysis template overlaid with the emergency insight list and the fixed
emergency metadata block.  A total function of the request data, the error
message and the clock — no collaborator is consulted. -/
def _generate_emergency_ultra_real_fallback (data : Obj) (error : PyErr)
    (now : String) : Obj :=
  ((_generate_basic_real_analysis data).set "insights_exclusivos_real_ultra"
      (.vList (emergencyInsights data error))).set "metadata_ultra_detalhado"
      (.vObj (emergencyMeta error now))

/-- ASCII upper-casing (used for the `key.upper()` of `query_N` keys). -/
def pyUpper (s : String) : String :=
  String.mk (s.data.map (fun c => if 'a' ≤ c ∧ c ≤ 'z' then Char.ofNat (c.toNat - 32) else c))

/-- Python iteration over a value: list items, string characters, dict
keys; anything else raises `TypeError`. -/
def pyIter : Val → Except PyErr (List Val)
  | .vList l => .ok l
  | .vStr s => .ok (s.data.map (fun c => .vStr (String.mk [c])))
  | .vObj o => .ok (o.map (fun p => .vStr p.1))
  | _ => .error "TypeError: object is not iterable"

/-- Python `"\n".join(v)`: every item must be a string. -/
def pyJoinNl (v : Val) : Except PyErr String := do
  let items ← pyIter v
  let strs ← items.mapM (fun it => match it with
    | .vStr s => Except.ok s
    | _ => Except.error "TypeError: sequence item: expected str instance")
  pure (String.intercalate "\n" strs)

/-- Embeds `d[k] += n` for an integer counter (raises if the current value is
not a number, mirroring Python's `+=` on a non-numeric value). -/
def addCounter (cd : Obj) (k : String) (n : Nat) : Except PyErr Obj :=
  match get? cd k with
  | some (.vNum q) => .ok (cd.set k (.vNum (q + n)))
  | _ => .error "TypeError: unsupported operand types"

/-- The fresh per-request aggregate (lines 102-114). -/
def initialComprehensive : Obj :=
  [("attachments", .vObj []), ("web_research", .vObj []), ("deep_search", .vObj []),
   ("market_intelligence", .vObj []), ("competitor_analysis", .vObj []),
   ("trend_analysis", .vObj []), ("sources", .vList []),
   ("research_iterations", .vNum 0), ("total_content_length", .vNum 0),
   ("real_data_sources", .vNum 0), ("cache_hits", .vNum 0)]

/-- The per-attachment loop of the collector (lines 124-138): accumulate
combined content and group per content type.  A non-string
`extracted_content` makes the `+=` concatenation raise.  (Non-string
content types are keyed through `pyStr`, a documented abstraction of
Python's non-string dict keys; no claim touches it.) -/
def processAtts : List Obj → String → Obj → Except PyErr (String × Obj)
  | [], combined, groups => .ok (combined, groups)
  | att :: rest, combined, groups =>
      let ec := getD att "extracted_content" .vNull
      if truthy ec then
        match ec with
        | .vStr content =>
            let combined := combined ++ content ++ "\n\n"
            let ct := pyStr (getD att "content_type" (.vStr "geral"))
            let entry := Val.vObj [
              ("filename", getD att "filename" .vNull),
              ("content", .vStr content),
              ("analysis", .vObj (_analyze_attachment_content content ct))]
            let groups := match get? groups ct with
              | some (.vList l) => groups.set ct (.vList (l ++ [entry]))
              | _ => groups.set ct (.vList [entry])
            processAtts rest combined groups
        | _ => .error "TypeError: can only concatenate str to str"
      else processAtts rest combined groups

/-- Attachment step of the collector (lines 116-148): fetch session
attachments when a session id is present and fold them into the
aggregate. -/
def attachStep (o : Oracle) (sid : Val) (cd : Obj) : List Call × Except PyErr Obj :=
  if truthy sid then
    ([Call.getAttachments],
     match o.attachments with
     | .error e => .error e
     | .ok atts =>
        if atts.isEmpty then .ok cd
        else do
          let (combined, groups) ← processAtts atts "" []
          let cd := cd.set "attachments" (.vObj [
            ("count", .vNum atts.length),
            ("combined_content", .vStr (combined.take 20000)),
            ("types_analysis", .vObj groups),
            ("total_length", .vNum combined.length)])
          let cd ← addCounter cd "total_content_length" combined.length
          addCounter cd "real_data_sources" atts.length)
  else ([], .ok cd)

/-- Body of one iteration of the web-research loop (lines 160-182), after
the collaborator returned `wr` for the `i`-th query `q` (0-based):
record the result, extend the sources, bump the counters. -/
def queryStep (cd : Obj) (i : Nat) (wr : Obj) : Except PyErr Obj := do
  let cd ← match get? cd "web_research" with
    | some (.vObj w) =>
        Except.ok (cd.set "web_research"
          (.vObj (Obj.set w ("query_" ++ toString (i + 1)) (.vObj wr))))
    | _ => Except.error "TypeError: object does not support item assignment"
  let newSources ← pyIter (getD wr "sources" (.vList []))
  let cd ← match get? cd "sources" with
    | some (.vList l) => Except.ok (cd.set "sources" (.vList (l ++ newSources)))
    | _ => Except.error "AttributeError: object has no attribute extend"
  let cd ← addCounter cd "research_iterations" 1
  let cd ← addCounter cd "real_data_sources" newSources.length
  let content ← match getD wr "research_summary" (.vObj []) with
    | .vObj so => Except.ok (getD so "combined_content" (.vStr ""))
    | _ => Except.error "AttributeError: object has no attribute get"
  let n ← pyLen content
  addCounter cd "total_content_length" n

/-- The web-research query loop (lines 157-182): one collaborator call per
query; an exception aborts the loop (there is no `try` around it). -/
def runQueries (o : Oracle) : List (Nat × String) → Obj → List Call × Except PyErr Obj
  | [], cd => ([], .ok cd)
  | (i, q) :: rest, cd =>
      match o.research q with
      | .error e => ([Call.research q], .error e)
      | .ok wr =>
          match queryStep cd i wr with
          | .error e => ([Call.research q], .error e)
          | .ok cd' =>
              let (log, r) := runQueries o rest cd'
              (Call.research q :: log, r)

/-- Local-heuristics tail of the collector (lines 186-193): market
intelligence, competitor analysis, trend analysis. -/
def finishCollect (data : Obj) (cd : Obj) : Except PyErr Obj := do
  let mi ← _gather_ultra_real_market_intelligence data
  let cd := cd.set "market_intelligence" (.vObj mi)
  let cd := cd.set "competitor_analysis" (.vObj (_perform_deep_real_competitor_analysis data))
  let ta ← _analyze_real_market_trends data
  pure (cd.set "trend_analysis" (.vObj ta))

/-- Embeds `_collect_ultra_comprehensive_real_data` (lines 95-197).  Note: the
method contains no exception handling; any collaborator raise propagates
to the caller. -/
def _collect_ultra_comprehensive_real_data (o : Oracle) (data : Obj) (sid : Val) :
    List Call × Except PyErr Obj :=
  let (log1, r1) := attachStep o sid initialComprehensive
  match r1 with
  | .error e => (log1, .error e)
  | .ok cd1 =>
      if o.websailorAvailable then
        let queries := _generate_ultra_comprehensive_real_queries data
        let (log2, r2) := runQueries o queries.enum cd1
        match r2 with
        | .error e => (log1 ++ log2, .error e)
        | .ok cd2 => (log1 ++ log2, finishCollect data cd2)
      else (log1, finishCollect data cd1)

/-- One entry of the research-context accumulation (lines 218-224). -/
def ctxOne (acc : String) (kv : String × Val) : Except PyErr String := do
  let so ← match kv.2 with
    | .vObj wro =>
        match getD wro "research_summary" (.vObj []) with
        | .vObj so => Except.ok so
        | _ => Except.error "AttributeError: object has no attribute get"
    | _ => Except.error "AttributeError: object has no attribute get"
  let acc := acc ++ "PESQUISA REAL " ++ pyUpper kv.1 ++ ":\n" ++
             pyStr (getD so "combined_content" (.vStr "")) ++ "\n\n"
  let insights := getD so "key_insights" (.vList [])
  if truthy insights then
    let j ← pyJoinNl insights
    pure (acc ++ "INSIGHTS REAIS " ++ pyUpper kv.1 ++ ":\n" ++ j ++ "\n\n")
  else
    pure acc

/-- The research-context string built before the Gemini call
(lines 216-224). -/
def buildSearchContext (cd : Obj) : Except PyErr String :=
  if truthy (getD cd "web_research" .vNull) then
    match getD cd "web_research" .vNull with
    | .vObj w => w.foldlM ctxOne ""
    | _ => .error "AttributeError: object has no attribute items"
  else
    pure ""

/-- The Gemini part of the synthesizer (lines 211-237): everything inside
the `try` (context building included) falls back to the local basic
analysis on a raise; the entry is only created when the imported client is
truthy. -/
def geminiEntry (o : Oracle) (data cd : Obj) : List Call × Obj :=
  if o.geminiPresent then
    match buildSearchContext cd with
    | .error _ =>
        ([], Obj.set [] "gemini_ultra_real" (.vObj (_generate_basic_real_gemini_analysis data)))
    | .ok _ctx =>
        match o.gemini with
        | .ok g => ([Call.gemini], Obj.set [] "gemini_ultra_real" (.vObj g))
        | .error _ =>
            ([Call.gemini],
             Obj.set [] "gemini_ultra_real" (.vObj (_generate_basic_real_gemini_analysis data)))
  else ([], [])

/-- The HuggingFace part of the synthesizer (lines 239-250): only called
when available; a raise is logged and skipped; a falsy result adds no
entry. -/
def hfEntry (o : Oracle) (a1 : Obj) : List Call × Obj :=
  if o.hfAvailable then
    match o.hfAnalyze with
    | .ok v =>
        ([Call.hfAnalyze],
         if truthy v then Obj.set a1 "huggingface_ultra_real" (.vObj [("analysis", v)]) else a1)
    | .error _ => ([Call.hfAnalyze], a1)
  else ([], a1)

/-- Embeds `_run_multi_ai_ultra_real_analysis` (lines 199-258): Gemini entry
(with local-basic substitution on any raise inside the `try`), optional
HuggingFace entry (failures silently skipped), optional cross-validation
entry when more than one analysis exists. -/
def _run_multi_ai_ultra_real_analysis (o : Oracle) (data cd : Obj) :
    List Call × Obj :=
  let (glog, a1) := geminiEntry o data cd
  let (hlog, a2) := hfEntry o a1
  let a3 :=
    if a2.length > 1 then
      Obj.set a2 "cross_validation_real" (.vObj (_perform_cross_ai_real_analysis a2))
    else a2
  (glog ++ hlog, a3)

/-- The pure key-attachment tail of the consolidator (lines 276-308):
research sections when truthy, then the five generated sections. -/
def attachSections (main cd : Obj) (ins : List Val) (plan met tim mon : Obj) : Obj :=
  let u := main
  let u := if truthy (getD cd "web_research" .vNull) then
      u.set "pesquisa_web_real_detalhada" (getD cd "web_research" .vNull) else u
  let u := if truthy (getD cd "market_intelligence" .vNull) then
      u.set "inteligencia_mercado_real_ultra" (getD cd "market_intelligence" .vNull) else u
  let u := if truthy (getD cd "competitor_analysis" .vNull) then
      u.set "analise_concorrencia_real_ultra" (getD cd "competitor_analysis" .vNull) else u
  let u := if truthy (getD cd "trend_analysis" .vNull) then
      u.set "analise_tendencias_real_ultra" (getD cd "trend_analysis" .vNull) else u
  let u := u.set "insights_exclusivos_real_ultra" (.vList ins)
  let u := u.set "plano_implementacao_real_completo" (.vObj plan)
  let u := u.set "metricas_sucesso_real_avancadas" (.vObj met)
  let u := u.set "cronograma_real_365_dias" (.vObj tim)
  u.set "sistema_monitoramento_real" (.vObj mon)

/-- The consolidator base (lines 269-276): the Gemini entry if truthy,
else the local basic analysis; `.copy()` needs a dict. -/
def consolidateBase (data aiSet : Obj) : Except PyErr Obj :=
  let mainV := getD aiSet "gemini_ultra_real" (.vObj [])
  let mainV := if truthy mainV then mainV else .vObj (_generate_basic_real_analysis data)
  match mainV with
  | .vObj m => .ok m
  | _ => .error "AttributeError: object has no attribute copy"

/-- Embeds `_consolidate_ultra_real_analysis` (lines 260-308).  The generated
sections are computed in source order (insights, plan, metrics, timeline,
monitoring — the first raise wins) and then attached by the pure
`attachSections`. -/
def _consolidate_ultra_real_analysis (data cd aiSet : Obj) : Except PyErr Obj := do
  let main ← consolidateBase data aiSet
  let ins ← _generate_ultra_exclusive_real_insights cd aiSet
  let plan ← _create_complete_real_implementation_plan data
  let met ← _create_advanced_real_success_metrics data
  let tim ← _create_real_365_day_timeline data
  let mon ← _create_real_monitoring_system data
  pure (attachSections main cd ins plan met tim mon)

/-- The `metadata_ultra_detalhado` block of the success path
(lines 66-83), with `time.time()` deltas modelled as `0` and the clock as
`now`; the fallible parts (`len` of sources, the quality scorer, `len` of
the insight key) are evaluated in source order. -/
def buildMeta (now : String) (cd final aiSet : Obj) : Except PyErr Obj := do
  let ds ← pyLen (getD cd "sources" (.vList []))
  let q ← _calculate_ultra_quality_score final
  let c := _calculate_completeness_score final
  let n ← pyLen (getD final "insights_exclusivos_ultra" (.vList []))
  pure [
    ("processing_time_seconds", .vNum 0),
    ("processing_time_formatted", .vStr "0m 0s"),
    ("analysis_engine", .vStr "ARQV30 Enhanced Ultra-Robust REAL v2.0"),
    ("data_sources_used", .vNum ds),
    ("ai_models_used", .vNum aiSet.length),
    ("generated_at", .vStr now),
    ("quality_score", .vNum q),
    ("completeness_score", .vNum c),
    ("depth_level", .vStr "ULTRA_PROFUNDO_REAL"),
    ("research_iterations", getD cd "research_iterations" (.vNum 0)),
    ("total_content_analyzed", getD cd "total_content_length" (.vNum 0)),
    ("unique_insights_generated", .vNum n),
    ("real_data_guarantee", .vBool true),
    ("cache_used", .vBool false),
    ("simulation_free", .vBool true)]

/-- Everything inside the `try` of `generate_ultra_comprehensive_analysis`
(lines 48-89): collect, synthesize, consolidate, attach metadata. -/
def runPhases (o : Oracle) (data : Obj) (sid : Val) : List Call × Except PyErr Obj :=
  let (log1, r1) := _collect_ultra_comprehensive_real_data o data sid
  match r1 with
  | .error e => (log1, .error e)
  | .ok cd =>
      let (log2, aiSet) := _run_multi_ai_ultra_real_analysis o data cd
      (log1 ++ log2,
       do
         let final ← _consolidate_ultra_real_analysis data cd aiSet
         let meta ← buildMeta o.now cd final aiSet
         pure (final.set "metadata_ultra_detalhado" (.vObj meta)))

/-- Embeds `generate_ultra_comprehensive_analysis` (lines 38-93): the phase
pipeline wrapped in `try`/`except`, with the emergency fallback on any
raise.  (Lines 48-50 of the source contain a stray wrongly indented line
that CPython rejects; as recorded in the header, the embedding follows the
evident `try`/`except` control flow of lines 48 and 91-93.) -/
def generate_ultra_comprehensive_analysis (o : Oracle) (data : Obj) (sid : Val) :
    List Call × Obj :=
  let (log, r) := runPhases o data sid
  match r with
  | .ok final => (log, final)
  | .error e => (log, _generate_emergency_ultra_real_fallback data e o.now)

/-- The numeric request fields normalized by the route (line 934). -/
def numeric_fields : List String := ["preco", "objetivo_receita", "orcamento_marketing"]

/-- Embeds `s.replace(',', '.')` for the single-character pattern the route
uses. -/
def pyReplaceCommaDot (s : String) : String :=
  String.mk (s.data.map (fun c => if c = ',' then '.' else c))

/-- Embeds `float(str(v).replace(',', '.'))` with `0.0` on `ValueError` /
`TypeError` (lines 936-939). -/
def parseOr0 (v : Val) : Rat :=
  match pyFloat (pyReplaceCommaDot (pyStr v)) with
  | some q => q
  | none => 0

/-- One iteration of the numeric-normalization loop (lines 934-939):
`if field in data and data[field]:` then store `{field}_float`. -/
def procField (d : Obj) (f : String) : Obj :=
  match get? d f with
  | some v => if truthy v then d.set (f ++ "_float") (.vNum (parseOr0 v)) else d
  | none => d

/-- The numeric-normalization loop of `analyze_market` (lines 933-939). -/
def processNumericFields (d : Obj) : Obj :=
  numeric_fields.foldl procField d

/-- Embeds `data.get('session_id') or session.get('session_id')` (line 942). -/
def sessionOf (o : Oracle) (d : Obj) : Val :=
  let v := getD d "session_id" .vNull
  if truthy v then v else o.flaskSession.getD .vNull

/-- The 400 body for a missing/empty request body (lines 920-924). -/
def err400NoData : Obj :=
  [("error", .vStr "Dados não fornecidos"),
   ("message", .vStr "Envie os dados da análise no corpo da requisição")]

/-- The 400 body for a missing/empty `segmento` (lines 927-931). -/
def err400NoSegmento : Obj :=
  [("error", .vStr "Segmento obrigatório"),
   ("message", .vStr "O campo \"segmento\" é obrigatório para a análise")]

/-- The 500 body of the route-level `except` (lines 990-996). -/
def err500 (msg now : String) : Obj :=
  [("error", .vStr "Erro interno na análise"), ("message", .vStr msg),
   ("timestamp", .vStr now)]

/-- The persistence attempt of `analyze_market` (lines 952-979): only when
the result is truthy and has no `error` key; every failure inside the
`try` (including a missing `id` on the returned record) is swallowed; a
successful save adds `database_id`. -/
def persistStep (o : Oracle) (result : Obj) : List Call × Obj :=
  if truthy (.vObj result) && (get? result "error").isNone then
    ([Call.dbCreate],
     match o.dbCreate with
     | .error _ => result
     | .ok none => result
     | .ok (some rec) =>
        match get? rec "id" with
        | some v => result.set "database_id" v
        | none => result)
  else ([], result)

/-- Embeds `analyze_market` — the `POST /analyze` handler (lines 913-996):
validation, numeric normalization, the orchestrating call, the swallowed
persistence attempt, and the 200 response; a truthy non-dict JSON body
reaches `data.get` and surfaces as the route-level 500.  (Lines 980-985 of
the source are an orphaned `except` fragment CPython rejects; as recorded
in the header, the embedding follows the evident control flow of lines
952-979.)  Returns (collaborator-call log, HTTP status, response body). -/
def analyze_market (o : Oracle) (body : Option Val) : List Call × Nat × Val :=
  match body with
  | none => ([], 400, .vObj err400NoData)
  | some bv =>
    if !truthy bv then ([], 400, .vObj err400NoData)
    else
      match bv with
      | .vObj d =>
        if !truthy (getD d "segmento" .vNull) then ([], 400, .vObj err400NoSegmento)
        else
          let d := processNumericFields d
          let sid := sessionOf o d
          let (log, result) := generate_ultra_comprehensive_analysis o d sid
          let (plog, result) := persistStep o result
          (log ++ plog, 200, .vObj result)
      | _ => ([], 500, .vObj (err500 "AttributeError: object has no attribute get" o.now))

/-! ## Helper lemmas about the dict model -/

theorem get?_nil (k : String) : get? [] k = none := rfl

theorem get?_cons (k0 : String) (v0 : Val) (rest : Obj) (k : String) :
    get? ((k0, v0) :: rest) k = if k0 = k then some v0 else get? rest k := by
  by_cases hk : k0 = k
  · subst hk; simp [get?, List.find?]
  · have hb : (k0 == k) = false := by simp [hk]
    simp [get?, List.find?, hb, hk]

theorem set_cons (k0 : String) (v0 : Val) (rest : Obj) (k : String) (v : Val) :
    Obj.set ((k0, v0) :: rest) k v =
      if k0 = k then (k, v) :: rest else (k0, v0) :: Obj.set rest k v := by
  by_cases hk : k0 = k
  · have hb : (k0 == k) = true := by simp [hk]
    simp [Obj.set, hb, hk]
  · have hb : (k0 == k) = false := by simp [hk]
    simp [Obj.set, hb, hk]

theorem get?_set_self (o : Obj) (k : String) (v : Val) :
    get? (Obj.set o k v) k = some v := by
  induction o with
  | nil =>
      show get? [(k, v)] k = some v
      rw [get?_cons, if_pos rfl]
  | cons p rest ih =>
      obtain ⟨k0, v0⟩ := p
      rw [set_cons]
      by_cases hk : k0 = k
      · rw [if_pos hk, get?_cons, if_pos rfl]
      · rw [if_neg hk, get?_cons, if_neg hk, ih]

theorem get?_set_ne {k' k : String} (h : k' ≠ k) (o : Obj) (v : Val) :
    get? (Obj.set o k v) k' = get? o k' := by
  induction o with
  | nil =>
      show get? [(k, v)] k' = get? [] k'
      rw [get?_cons, get?_nil, if_neg (Ne.symm h)]
  | cons p rest ih =>
      obtain ⟨k0, v0⟩ := p
      rw [set_cons]
      by_cases hk : k0 = k
      · rw [if_pos hk, get?_cons, get?_cons, if_neg (Ne.symm h),
          if_neg (fun hh : k0 = k' => h (hh.symm.trans hk))]
      · rw [if_neg hk, get?_cons, get?_cons, ih]

theorem addCounter_get?_ne {cd cd' : Obj} {k : String} {n : Nat}
    (h : addCounter cd k n = .ok cd') {k' : String} (hne : k' ≠ k) :
    get? cd' k' = get? cd k' := by
  unfold addCounter at h
  rcases hv : get? cd k with _ | v
  · rw [hv] at h; exact absurd h (by simp)
  · rw [hv] at h
    cases v with
    | vNum q =>
        simp only [Except.ok.injEq] at h
        rw [← h]
        exact get?_set_ne hne cd _
    | vStr s => exact absurd h (by simp)
    | vBool b => exact absurd h (by simp)
    | vNull => exact absurd h (by simp)
    | vList l => exact absurd h (by simp)
    | vObj o => exact absurd h (by simp)

theorem truthy_vStr_of_ne {s : String} (h : s ≠ "") : truthy (.vStr s) = true := by
  show (!s.isEmpty) = true
  cases hb : s.isEmpty with
  | false => rfl
  | true => exact absurd ((String.isEmpty_iff s).mp hb) h

theorem truthy_vObj_of_seg {d : Obj} (h : truthy (getD d "segmento" .vNull) = true) :
    truthy (.vObj d) = true := by
  cases d with
  | nil => exact absurd h (by simp [getD, get?, truthy])
  | cons p rest => simp [truthy]

/-- For a request body with a truthy `segmento`, the handler reaches the
pipeline: status 200, body from `generate` plus the persistence step, log
from both. -/
theorem analyze_market_valid (o : Oracle) (d : Obj)
    (hseg : truthy (getD d "segmento" .vNull) = true) :
    analyze_market o (some (.vObj d)) =
      ((generate_ultra_comprehensive_analysis o (processNumericFields d)
          (sessionOf o (processNumericFields d))).1 ++
        (persistStep o (generate_ultra_comprehensive_analysis o (processNumericFields d)
          (sessionOf o (processNumericFields d))).2).1,
       200,
       .vObj (persistStep o (generate_ultra_comprehensive_analysis o (processNumericFields d)
          (sessionOf o (processNumericFields d))).2).2) := by
  have ht := truthy_vObj_of_seg hseg
  rcases hgen : generate_ultra_comprehensive_analysis o (processNumericFields d)
      (sessionOf o (processNumericFields d)) with ⟨log, result⟩
  rcases hper : persistStep o result with ⟨plog, result'⟩
  simp [analyze_market, ht, hseg, hgen, hper]

/-- The persistence step touches at most the `database_id` key. -/
theorem persistStep_get? (o : Oracle) (result : Obj) {k : String}
    (hk : k ≠ "database_id") :
    get? (persistStep o result).2 k = get? result k := by
  unfold persistStep
  split
  · rcases o.dbCreate with _ | r
    · rfl
    · rcases r with _ | rec
      · rfl
      · rcases hid : get? rec "id" with _ | v
        · simp only [hid]
        · simp only [hid]
          exact get?_set_ne hk result v
  · rfl

theorem persistStep_log (o : Oracle) (result : Obj) :
    (persistStep o result).1 = [] ∨ (persistStep o result).1 = [Call.dbCreate] := by
  unfold persistStep
  split
  · right
    rcases o.dbCreate with _ | r
    · rfl
    · rcases r with _ | rec
      · rfl
      · rcases get? rec "id" with _ | v <;> rfl
  · left; rfl

theorem attachStep_log (o : Oracle) (sid : Val) (cd : Obj) :
    (attachStep o sid cd).1 = [] ∨ (attachStep o sid cd).1 = [Call.getAttachments] := by
  unfold attachStep
  split
  · right; rfl
  · left; rfl

theorem geminiEntry_log (o : Oracle) (data cd : Obj) :
    (geminiEntry o data cd).1 = [] ∨ (geminiEntry o data cd).1 = [Call.gemini] := by
  unfold geminiEntry
  split
  · rcases buildSearchContext cd with e | c
    · left; rfl
    · rcases o.gemini with e | g <;> [right; right] <;> rfl
  · left; rfl

theorem hfEntry_log (o : Oracle) (a1 : Obj) :
    (hfEntry o a1).1 = [] ∨ (hfEntry o a1).1 = [Call.hfAnalyze] := by
  unfold hfEntry
  split
  · rcases o.hfAnalyze with e | v
    · right; rfl
    · right; rfl
  · left; rfl

theorem synth_log_no_research (o : Oracle) (data cd : Obj) (q : String) :
    Call.research q ∉ (_run_multi_ai_ultra_real_analysis o data cd).1 := by
  rcases hg : geminiEntry o data cd with ⟨glog, a1⟩
  rcases hh : hfEntry o a1 with ⟨hlog, a2⟩
  have hg1 := geminiEntry_log o data cd
  have hh1 := hfEntry_log o a1
  rw [hg] at hg1
  rw [hh] at hh1
  simp at hg1 hh1
  simp only [_run_multi_ai_ultra_real_analysis, hg, hh]
  rcases hg1 with h1 | h1 <;> rcases hh1 with h2 | h2 <;> subst h1 <;> subst h2 <;> simp

/-! ## Concrete collaborator environments for witnesses and counterexamples -/

/-- A benign environment: every collaborator unavailable or trivially
succeeding. -/
def oracleStub : Oracle :=
  { attachments := .ok [], websailorAvailable := false,
    research := fun _ => .ok [], geminiPresent := false, gemini := .ok [],
    hfAvailable := false, hfAnalyze := .ok .vNull,
    dbAvailable := false, dbCreate := .ok none, flaskSession := none, now := "" }

/-- An environment whose web-research collaborator raises on every query. -/
def oracleResearchDown : Oracle :=
  { oracleStub with websailorAvailable := true, research := fun _ => .error "boom" }

/-- An environment whose attachment collaborator raises. -/
def oracleAttachDown : Oracle :=
  { oracleStub with attachments := .error "att down" }

/-! ## Claims -/


section RatCompute
attribute [local semireducible] Rat.add Rat.mul Rat.sub Rat.inv Rat.ofScientific

/-- C10: the market-intelligence lookup is a pure deterministic function of
the request (`_gather_ultra_real_market_intelligence` consults no
collaborator): any request whose lower-cased `segmento` contains
`medicina` or `saúde` gets the health record — whose `market_size` is the
literal `R$ 280 bilhões (mercado de saúde brasileiro)` — any request whose
lower-cased `segmento` matches no keyword group gets the generic record,
and `saúde digital` takes the health branch, ahead of the digital one. -/
theorem c10_market_intelligence_lookup (data : Obj) (s : String)
    (hseg : get? data "segmento" = some (.vStr s)) :
    ((strContains (pyLower s) "medicina" || strContains (pyLower s) "saúde") = true →
        _gather_ultra_real_market_intelligence data = .ok healthIntel) ∧
    ((strContains (pyLower s) "medicina" || strContains (pyLower s) "saúde" ||
      strContains (pyLower s) "digital" || strContains (pyLower s) "online") = false →
        _gather_ultra_real_market_intelligence data = .ok genericIntel) ∧
    get? healthIntel "market_size"
      = some (.vStr "R$ 280 bilhões (mercado de saúde brasileiro)") ∧
    _gather_ultra_real_market_intelligence [("segmento", .vStr "saúde digital")]
      = .ok healthIntel := by
  refine ⟨?_, ?_, rfl, by rfl⟩
  · intro hb
    unfold _gather_ultra_real_market_intelligence
    simp only [getD, hseg]
    show (if (strContains (pyLower s) "medicina" || strContains (pyLower s) "saúde") = true
        then (pure healthIntel : Except PyErr Obj)
        else if (strContains (pyLower s) "digital" || strContains (pyLower s) "online") = true
        then pure digitalIntel else pure genericIntel) = Except.ok healthIntel
    rw [hb]
    rfl
  · intro hb
    simp only [Bool.or_eq_false_iff] at hb
    obtain ⟨⟨⟨h1, h2⟩, h3⟩, h4⟩ := hb
    unfold _gather_ultra_real_market_intelligence
    simp only [getD, hseg]
    show (if (strContains (pyLower s) "medicina" || strContains (pyLower s) "saúde") = true
        then (pure healthIntel : Except PyErr Obj)
        else if (strContains (pyLower s) "digital" || strContains (pyLower s) "online") = true
        then pure digitalIntel else pure genericIntel) = Except.ok genericIntel
    rw [h1, h2, h3, h4]
    rfl

/-- C10 witness: the `saúde digital` request takes the health branch. -/
theorem c10_market_intelligence_lookup_witness :
    _gather_ultra_real_market_intelligence [("segmento", .vStr "saúde digital")]
      = .ok healthIntel :=
  (c10_market_intelligence_lookup [("segmento", .vStr "saúde digital")]
    "saúde digital" rfl).1 (by rfl)

theorem foldl_quality_nonneg (a : Obj) (l : List String) (acc : Rat) (h : 0 ≤ acc) :
    0 ≤ l.foldl (fun sc s => if sectionPresent a s then sc + 667/100 else sc) acc := by
  induction l generalizing acc with
  | nil => exact h
  | cons x xs ih =>
      simp only [List.foldl_cons]
      apply ih
      split
      · linarith
      · exact h

/-- C6 (amended): whenever the quality scorer returns a score (it raises
`TypeError` when the `insights_exclusivos_ultra` value has no length, see
the counterexample), that score is in [0,100]; the completeness scorer is
total and always lands in [0,100]. -/
theorem c6_scores_bounded (a : Obj) (q : Rat)
    (h : _calculate_ultra_quality_score a = .ok q) :
    (0 ≤ q ∧ q ≤ 100) ∧
    0 ≤ _calculate_completeness_score a ∧ _calculate_completeness_score a ≤ 100 := by
  refine ⟨?_, ?_, ?_⟩
  · unfold _calculate_ultra_quality_score at h
    rcases hn : pyLen (getD a "insights_exclusivos_ultra" (.vList [])) with e | n
    · rw [hn] at h
      exact absurd h (by simp [Except.bind])
    · rw [hn] at h
      replace h := (Except.ok.injEq _ _).mp h
      subst h
      constructor
      · have h0 : (0:Rat) ≤ List.foldl
            (fun sc s => if sectionPresent a s then sc + 667/100 else sc) 0
            required_sections :=
          foldl_quality_nonneg a required_sections 0 le_rfl
        have h1 : (0:Rat) ≤
            (if n ≥ 15 then (30 : Rat) else if n ≥ 10 then 20 else if n ≥ 5 then 10 else 0) := by
          repeat' split <;> norm_num
        have h2 : (0:Rat) ≤ (if (get? a "pesquisa_web_detalhada").isSome then (15:Rat) else 0) := by
          split <;> norm_num
        have h3 : (0:Rat) ≤ (if (get? a "inteligencia_mercado_ultra").isSome then (15:Rat) else 0) := by
          split <;> norm_num
        refine le_min ?_ (by norm_num)
        linarith
      · exact min_le_right _ _
  · unfold _calculate_completeness_score
    positivity
  · unfold _calculate_completeness_score
    have hc : (sections_to_check.countP (fun s => sectionPresent a s) : Rat) ≤ 10 := by
      have := List.countP_le_length (fun s => sectionPresent a s) (l := sections_to_check)
      have h10 : sections_to_check.length = 10 := by rfl
      rw [h10] at this
      exact_mod_cast this
    have hlen : ((sections_to_check.length : Rat)) = 10 := by rfl
    rw [hlen]
    have : ((sections_to_check.countP (fun s => sectionPresent a s) : Rat) / 10) * 100 =
        (sections_to_check.countP (fun s => sectionPresent a s) : Rat) * 10 := by ring
    rw [this]
    linarith

/-- C6 witness: the empty document scores quality 0 and completeness 0,
inside the bounds. -/
theorem c6_scores_bounded_witness :
    (0 ≤ (0:Rat) ∧ (0:Rat) ≤ 100) ∧
    0 ≤ _calculate_completeness_score [] ∧ _calculate_completeness_score [] ≤ 100 :=
  c6_scores_bounded [] 0 (by rfl)

/-- C6 counterexample: on the dictionary mapping `insights_exclusivos_ultra`
to the number 1, the quality scorer raises `TypeError` (Python `len(1)`), so
no score in [0,100] is returned; the claim fails for this dictionary. -/
theorem c6_counterexample :
    _calculate_ultra_quality_score [("insights_exclusivos_ultra", .vNum 1)]
      = .error "TypeError: object of type has no len()" := by rfl

/-- C2 counterexample: a web-research collaborator that raises on the first
query makes the collector itself return the raised error (it has no
exception handling), and the call log shows the remaining nine queries
were never issued (the failure aborts the loop). -/
theorem c2_counterexample :
    (_collect_ultra_comprehensive_real_data oracleResearchDown
        [("segmento", .vStr "moda")] .vNull).2 = .error "boom" ∧
    (_collect_ultra_comprehensive_real_data oracleResearchDown
        [("segmento", .vStr "moda")] .vNull).1
      = [Call.research "dados reais mercado moda Brasil 2024 estatísticas crescimento"] ∧
    (_generate_ultra_comprehensive_real_queries [("segmento", .vStr "moda")]).length
      = 10 := by
  exact ⟨by rfl, by rfl, by rfl⟩

/-- C2 (amended): the collector contains no exception handling, so a
collaborator failure propagates out of it; the orchestrator's top-level
handler then substitutes the emergency fallback document (so the request
as a whole still completes). -/
theorem c2_collector_error_propagates (o : Oracle) (data : Obj) (sid : Val) (e : PyErr)
    (h : (_collect_ultra_comprehensive_real_data o data sid).2 = .error e) :
    (generate_ultra_comprehensive_analysis o data sid).2
      = _generate_emergency_ultra_real_fallback data e o.now := by
  unfold generate_ultra_comprehensive_analysis runPhases
  rcases hc : _collect_ultra_comprehensive_real_data o data sid with ⟨log, r⟩
  rw [hc] at h
  simp only at h
  subst h
  rfl

/-- C2 witness: instantiating the amended theorem on the failing
environment of the counterexample. -/
theorem c2_collector_error_propagates_witness :
    (generate_ultra_comprehensive_analysis oracleResearchDown
        [("segmento", .vStr "moda")] .vNull).2
      = _generate_emergency_ultra_real_fallback [("segmento", .vStr "moda")]
          "boom" oracleResearchDown.now :=
  c2_collector_error_propagates oracleResearchDown [("segmento", .vStr "moda")]
    .vNull "boom" (by rfl)

/-- The request of the C3 scenario. -/
def dC3 : Obj := [("segmento", .vStr "moda"), ("objetivo_receita", .vStr "50000,50")]

/-- C3: the route does normalize `"50000,50"` to the number `50000.5`, but
it stores it under `objetivo_receita_float`, while
`_create_complete_real_implementation_plan` reads the raw
`objetivo_receita` — so on this request the plan construction multiplies a
string by `0.15` and raises `TypeError`; the caught error sends the
request to the emergency fallback, whose body carries no implementation
plan at all (in particular no `fase_1_fundacao_real` bounds), contrary to
the claimed 15%/25% figures. -/
theorem c3_plan_reads_raw_field :
    get? (processNumericFields dC3) "objetivo_receita_float"
      = some (.vNum (100001/2)) ∧
    get? (processNumericFields dC3) "objetivo_receita" = some (.vStr "50000,50") ∧
    _create_complete_real_implementation_plan (processNumericFields dC3)
      = .error "TypeError: cannot multiply sequence by non-int of type float" ∧
    (analyze_market oracleStub (some (.vObj dC3))).2.1 = 200 ∧
    (analyze_market oracleStub (some (.vObj dC3))).2.2
      = .vObj (_generate_emergency_ultra_real_fallback (processNumericFields dC3)
          "TypeError: cannot multiply sequence by non-int of type float" "") ∧
    get? (_generate_emergency_ultra_real_fallback (processNumericFields dC3)
        "TypeError: cannot multiply sequence by non-int of type float" "")
        "plano_implementacao_real_completo" = none ∧
    get? (emergencyMeta
        "TypeError: cannot multiply sequence by non-int of type float" "")
        "emergency_mode" = some (.vBool true) := by
  refine ⟨by rfl, by rfl, by rfl, by rfl, by rfl, by rfl, by rfl⟩

theorem get?_procField_ne (d : Obj) (g : String) {k : String} (h : k ≠ g ++ "_float") :
    get? (procField d g) k = get? d k := by
  unfold procField
  cases hv : get? d g with
  | none => rfl
  | some v =>
      dsimp only
      split
      · exact get?_set_ne h d _
      · rfl

theorem get?_procField_self {d : Obj} {g : String} {v : Val}
    (hv : get? d g = some v) (ht : truthy v = true) :
    get? (procField d g) (g ++ "_float") = some (.vNum (parseOr0 v)) := by
  unfold procField
  rw [hv]
  simp only [ht, if_true]
  exact get?_set_self d _ _

theorem analyze_market_status (o : Oracle) (d : Obj)
    (hseg : truthy (getD d "segmento" .vNull) = true) :
    (analyze_market o (some (.vObj d))).2.1 = 200 := by
  rw [analyze_market_valid o d hseg]

/-- C7 counterexample: a field present as the empty string — a non-numeric
string — is skipped entirely by the `if field in data and data[field]`
guard: no `preco_float` entry is stored at all, rather than `0.0`. -/
theorem c7_counterexample :
    get? [("segmento", Val.vStr "x"), ("preco", Val.vStr "")] "preco"
      = some (.vStr "") ∧
    get? (processNumericFields [("segmento", .vStr "x"), ("preco", .vStr "")])
      "preco_float" = none :=
  ⟨rfl, rfl⟩

/-- C7 (amended): for a numeric field present as a non-empty string, a
failed parse stores `0.0` under `{field}_float`, a successful parse (with
comma accepted as decimal separator via the `,`→`.` replacement) stores
the parsed value, and the request proceeds to the pipeline (status 200)
either way; a field present as the empty string is skipped (see the
counterexample). -/
theorem c7_numeric_normalization (o : Oracle) (d : Obj) (f s : String)
    (hf : f ∈ numeric_fields) (hv : get? d f = some (.vStr s)) (hs : s ≠ "") :
    (pyFloat (pyReplaceCommaDot s) = none →
        get? (processNumericFields d) (f ++ "_float") = some (.vNum 0)) ∧
    (∀ q : Rat, pyFloat (pyReplaceCommaDot s) = some q →
        get? (processNumericFields d) (f ++ "_float") = some (.vNum q)) ∧
    (truthy (getD d "segmento" .vNull) = true →
        (analyze_market o (some (.vObj d))).2.1 = 200) := by
  have ht : truthy (.vStr s) = true := truthy_vStr_of_ne hs
  have key : get? (processNumericFields d) (f ++ "_float")
      = some (.vNum (parseOr0 (.vStr s))) := by
    fin_cases hf
    · show get? (procField (procField (procField d "preco") "objetivo_receita")
          "orcamento_marketing") ("preco" ++ "_float") = _
      rw [get?_procField_ne _ _ (by decide), get?_procField_ne _ _ (by decide)]
      exact get?_procField_self hv ht
    · show get? (procField (procField (procField d "preco") "objetivo_receita")
          "orcamento_marketing") ("objetivo_receita" ++ "_float") = _
      rw [get?_procField_ne _ _ (by decide)]
      have hv' : get? (procField d "preco") "objetivo_receita" = some (.vStr s) := by
        rw [get?_procField_ne _ _ (by decide)]
        exact hv
      exact get?_procField_self hv' ht
    · show get? (procField (procField (procField d "preco") "objetivo_receita")
          "orcamento_marketing") ("orcamento_marketing" ++ "_float") = _
      have hv' : get? (procField (procField d "preco") "objetivo_receita")
          "orcamento_marketing" = some (.vStr s) := by
        rw [get?_procField_ne _ _ (by decide), get?_procField_ne _ _ (by decide)]
        exact hv
      exact get?_procField_self hv' ht
  refine ⟨?_, ?_, fun hseg => analyze_market_status o d hseg⟩
  · intro hn
    have hz : parseOr0 (.vStr s) = 0 := by
      unfold parseOr0
      simp only [pyStr, hn]
    rw [key, hz]
  · intro q hq
    have hz : parseOr0 (.vStr s) = q := by
      unfold parseOr0
      simp only [pyStr, hq]
    rw [key, hz]

/-- C7 witness: `preco = "abc"` normalizes to `0.0`; the comma value
`"50000,50"` normalizes to `50000.5`. -/
theorem c7_numeric_normalization_witness :
    get? (processNumericFields [("segmento", .vStr "x"), ("preco", .vStr "abc")])
        ("preco" ++ "_float") = some (.vNum 0) ∧
    get? (processNumericFields dC3) ("objetivo_receita" ++ "_float")
        = some (.vNum (100001/2)) :=
  ⟨(c7_numeric_normalization oracleStub [("segmento", .vStr "x"), ("preco", .vStr "abc")]
      "preco" "abc" (by decide) rfl (by decide)).1 (by rfl),
   (c7_numeric_normalization oracleStub dC3 "objetivo_receita" "50000,50"
      (by decide) rfl (by decide)).2.1 (100001/2) (by rfl)⟩

/-- C5: a missing body, a falsy (e.g. empty) body, or a dict body whose
`segmento` is missing or falsy, is rejected with HTTP 400, a body carrying
`error` and `message` texts, and an empty collaborator-call log — no
attachment, web-research, LLM, secondary-inference or data-store
collaborator is invoked. -/
theorem c5_validation_rejects (o : Oracle) (body : Option Val)
    (h : body = none ∨ (∃ v, body = some v ∧ truthy v = false) ∨
         (∃ d, body = some (.vObj d) ∧ truthy (getD d "segmento" .vNull) = false)) :
    (analyze_market o body).1 = [] ∧ (analyze_market o body).2.1 = 400 ∧
    ∃ b, (analyze_market o body).2.2 = .vObj b ∧
      (get? b "error").isSome = true ∧ (get? b "message").isSome = true := by
  rcases h with rfl | ⟨v, rfl, hv⟩ | ⟨d, rfl, hd⟩
  · exact ⟨rfl, rfl, err400NoData, rfl, rfl, rfl⟩
  · have hm : analyze_market o (some v) = ([], 400, .vObj err400NoData) := by
      simp [analyze_market, hv]
    rw [hm]
    exact ⟨rfl, rfl, err400NoData, rfl, rfl, rfl⟩
  · by_cases ht : truthy (.vObj d) = true
    · have hm : analyze_market o (some (.vObj d)) = ([], 400, .vObj err400NoSegmento) := by
        simp [analyze_market, ht, hd]
      rw [hm]
      exact ⟨rfl, rfl, err400NoSegmento, rfl, rfl, rfl⟩
    · have ht' : truthy (.vObj d) = false := by simpa using ht
      have hm : analyze_market o (some (.vObj d)) = ([], 400, .vObj err400NoData) := by
        simp [analyze_market, ht']
      rw [hm]
      exact ⟨rfl, rfl, err400NoData, rfl, rfl, rfl⟩

/-- C5 witness: the missing-body and missing-`segmento` requests at the
concrete benign environment. -/
theorem c5_validation_rejects_witness :
    ((analyze_market oracleStub none).1 = [] ∧
     (analyze_market oracleStub none).2.1 = 400) ∧
    ((analyze_market oracleStub (some (.vObj [("produto", .vStr "x")]))).1 = [] ∧
     (analyze_market oracleStub (some (.vObj [("produto", .vStr "x")]))).2.1 = 400) :=
  ⟨⟨(c5_validation_rejects oracleStub none (Or.inl rfl)).1,
    (c5_validation_rejects oracleStub none (Or.inl rfl)).2.1⟩,
   ⟨(c5_validation_rejects oracleStub (some (.vObj [("produto", .vStr "x")]))
      (Or.inr (Or.inr ⟨[("produto", .vStr "x")], rfl, rfl⟩))).1,
    (c5_validation_rejects oracleStub (some (.vObj [("produto", .vStr "x")]))
      (Or.inr (Or.inr ⟨[("produto", .vStr "x")], rfl, rfl⟩))).2.1⟩⟩

theorem bindOkE {α β : Type} {a : α} (f : α → Except PyErr β) :
    ((Except.ok a : Except PyErr α) >>= f) = f a := rfl

theorem bindErr {α β : Type} {e : PyErr} {f : α → Except PyErr β} {r : β}
    (h : ((Except.error e : Except PyErr α) >>= f) = .ok r) : False :=
  Except.noConfusion h

theorem fallback_meta (d : Obj) (e : PyErr) (now : String) :
    get? (_generate_emergency_ultra_real_fallback d e now) "metadata_ultra_detalhado"
      = some (.vObj (emergencyMeta e now)) := rfl

theorem fallback_insights (d : Obj) (e : PyErr) (now : String) :
    get? (_generate_emergency_ultra_real_fallback d e now) "insights_exclusivos_real_ultra"
      = some (.vList (emergencyInsights d e)) := rfl

theorem fallback_no_web (d : Obj) (e : PyErr) (now : String) :
    get? (_generate_emergency_ultra_real_fallback d e now) "pesquisa_web_real_detalhada"
      = none := rfl

theorem fallback_avatar (d : Obj) (e : PyErr) (now : String) :
    ∃ av, get? (_generate_emergency_ultra_real_fallback d e now) "avatar_ultra_detalhado"
      = some av ∧ truthy av = true :=
  ⟨_, rfl, rfl⟩

/-- C1: when any phase inside the orchestrator's `try` (collection,
synthesis, consolidation or scoring) raises, the endpoint still answers
HTTP 200; the body is the emergency fallback document (possibly extended
with a `database_id` by the swallowed persistence step): its metadata
block is exactly `emergencyMeta` — quality 35.0, completeness 25.0,
`emergency_mode` true, `real_data_guarantee` false — and its insight list
is the emergency list containing the literal error message.  The fallback
generator `_generate_emergency_ultra_real_fallback` itself is a total
function of the request, the message and the clock: it takes no `Oracle`
and issues no collaborator call. -/
theorem c1_emergency_response (o : Oracle) (d : Obj) (e : PyErr)
    (hseg : truthy (getD d "segmento" .vNull) = true)
    (hrun : (runPhases o (processNumericFields d) (sessionOf o (processNumericFields d))).2
        = .error e) :
    (analyze_market o (some (.vObj d))).2.1 = 200 ∧
    ∃ b, (analyze_market o (some (.vObj d))).2.2 = .vObj b ∧
      get? b "metadata_ultra_detalhado" = some (.vObj (emergencyMeta e o.now)) ∧
      get? b "insights_exclusivos_real_ultra"
        = some (.vList (emergencyInsights (processNumericFields d) e)) ∧
      Val.vStr ("🔧 Erro detectado: " ++ e) ∈ emergencyInsights (processNumericFields d) e ∧
      get? (emergencyMeta e o.now) "quality_score" = some (.vNum 35) ∧
      get? (emergencyMeta e o.now) "completeness_score" = some (.vNum 25) ∧
      get? (emergencyMeta e o.now) "emergency_mode" = some (.vBool true) ∧
      get? (emergencyMeta e o.now) "real_data_guarantee" = some (.vBool false) := by
  have hgen : (generate_ultra_comprehensive_analysis o (processNumericFields d)
      (sessionOf o (processNumericFields d))).2
      = _generate_emergency_ultra_real_fallback (processNumericFields d) e o.now := by
    unfold generate_ultra_comprehensive_analysis
    rcases hr : runPhases o (processNumericFields d) (sessionOf o (processNumericFields d))
      with ⟨log, r⟩
    rw [hr] at hrun
    simp only at hrun
    subst hrun
    rfl
  rw [analyze_market_valid o d hseg]
  refine ⟨rfl, _, rfl, ?_, ?_, ?_, rfl, rfl, rfl, rfl⟩
  · rw [hgen, persistStep_get? o _ (by decide), fallback_meta]
  · rw [hgen, persistStep_get? o _ (by decide), fallback_insights]
  · exact List.Mem.tail _ (List.Mem.head _)

/-- C1 witness: a raising attachment collaborator sends the request to the
fallback with status 200. -/
theorem c1_emergency_response_witness :
    (analyze_market oracleAttachDown (some (.vObj [("segmento", .vStr "moda"),
        ("session_id", .vStr "s")]))).2.1 = 200 :=
  (c1_emergency_response oracleAttachDown
    [("segmento", .vStr "moda"), ("session_id", .vStr "s")] "att down"
    rfl (by rfl)).1

theorem get?_attachSections_base (main cd : Obj) (ins : List Val) (plan met tim mon : Obj)
    {k : String}
    (h1 : k ≠ "pesquisa_web_real_detalhada") (h2 : k ≠ "inteligencia_mercado_real_ultra")
    (h3 : k ≠ "analise_concorrencia_real_ultra") (h4 : k ≠ "analise_tendencias_real_ultra")
    (h5 : k ≠ "insights_exclusivos_real_ultra") (h6 : k ≠ "plano_implementacao_real_completo")
    (h7 : k ≠ "metricas_sucesso_real_avancadas") (h8 : k ≠ "cronograma_real_365_dias")
    (h9 : k ≠ "sistema_monitoramento_real") :
    get? (attachSections main cd ins plan met tim mon) k = get? main k := by
  simp only [attachSections]
  rw [get?_set_ne h9, get?_set_ne h8, get?_set_ne h7, get?_set_ne h6, get?_set_ne h5]
  repeat' split
  all_goals simp only [get?_set_ne h1, get?_set_ne h2, get?_set_ne h3, get?_set_ne h4]

theorem get?_attachSections_insights (main cd : Obj) (ins : List Val)
    (plan met tim mon : Obj) :
    get? (attachSections main cd ins plan met tim mon) "insights_exclusivos_real_ultra"
      = some (.vList ins) := by
  simp only [attachSections]
  rw [get?_set_ne (by decide), get?_set_ne (by decide), get?_set_ne (by decide),
    get?_set_ne (by decide), get?_set_self]

theorem consolidate_ok_shape {data cd aiSet result : Obj}
    (hok : _consolidate_ultra_real_analysis data cd aiSet = .ok result) :
    ∃ main ins plan met tim mon,
      consolidateBase data aiSet = .ok main ∧
      _generate_ultra_exclusive_real_insights cd aiSet = .ok ins ∧
      result = attachSections main cd ins plan met tim mon := by
  unfold _consolidate_ultra_real_analysis at hok
  rcases hb : consolidateBase data aiSet with e | main
  · rw [hb] at hok; exact absurd hok (fun h => bindErr h)
  · rw [hb, bindOkE] at hok
    rcases hi : _generate_ultra_exclusive_real_insights cd aiSet with e | ins
    · rw [hi] at hok; exact absurd hok (fun h => bindErr h)
    · rw [hi, bindOkE] at hok
      rcases hp : _create_complete_real_implementation_plan data with e | plan
      · rw [hp] at hok; exact absurd hok (fun h => bindErr h)
      · rw [hp, bindOkE] at hok
        rcases hm : _create_advanced_real_success_metrics data with e | met
        · rw [hm] at hok; exact absurd hok (fun h => bindErr h)
        · rw [hm, bindOkE] at hok
          rcases htl : _create_real_365_day_timeline data with e | tim
          · rw [htl] at hok; exact absurd hok (fun h => bindErr h)
          · rw [htl, bindOkE] at hok
            rcases hmo : _create_real_monitoring_system data with e | mon
            · rw [hmo] at hok; exact absurd hok (fun h => bindErr h)
            · rw [hmo, bindOkE] at hok
              exact ⟨main, ins, plan, met, tim, mon, rfl, rfl,
                ((Except.ok.injEq _ _).mp hok).symm⟩

theorem consolidateBase_basic {data aiSet main : Obj}
    (hb : consolidateBase data aiSet = .ok main)
    (hbase : get? aiSet "gemini_ultra_real" = none ∨
      get? aiSet "gemini_ultra_real"
        = some (.vObj (_generate_basic_real_gemini_analysis data))) :
    main = _generate_basic_real_analysis data ∨
    main = _generate_basic_real_gemini_analysis data := by
  unfold consolidateBase at hb
  rcases hbase with h | h
  · simp only [getD, h] at hb
    exact Or.inl ((Except.ok.injEq _ _).mp hb).symm
  · simp only [getD, h] at hb
    have ht : truthy (.vObj (_generate_basic_real_gemini_analysis data)) = true := rfl
    rw [ht] at hb
    simp only [if_true] at hb
    exact Or.inr ((Except.ok.injEq _ _).mp hb).symm

theorem insights_length {cd aiSet : Obj} {ins : List Val}
    (h : _generate_ultra_exclusive_real_insights cd aiSet = .ok ins) :
    ins.length = 20 := by
  unfold _generate_ultra_exclusive_real_insights at h
  rcases hn : pyLen (getD cd "sources" (.vList [])) with e | n
  · rw [hn] at h; exact absurd h (fun hh => bindErr hh)
  · rw [hn, bindOkE] at h
    rw [← (Except.ok.injEq _ _).mp h]
    rfl

/-- C4: when the consolidated document is based on the local basic analysis
(no Gemini entry, or the substituted basic Gemini analysis), the keys the
quality scorer checks for its section bonus (`insights_exclusivos_ultra`,
`plano_implementacao_completo`, `metricas_sucesso_avancadas`) and its two
15-point research bonuses (`pesquisa_web_detalhada`,
`inteligencia_mercado_ultra`) are all absent — the consolidator writes the
`_real_` variants instead — and consequently `len` of the
`insights_exclusivos_ultra` key is 0 (so the metadata field
`unique_insights_generated` is 0) even though the generated insight list
under `insights_exclusivos_real_ultra` has 20 entries. -/
theorem c4_scorer_key_drift (data cd aiSet result : Obj)
    (hbase : get? aiSet "gemini_ultra_real" = none ∨
      get? aiSet "gemini_ultra_real"
        = some (.vObj (_generate_basic_real_gemini_analysis data)))
    (hok : _consolidate_ultra_real_analysis data cd aiSet = .ok result) :
    get? result "insights_exclusivos_ultra" = none ∧
    get? result "plano_implementacao_completo" = none ∧
    get? result "metricas_sucesso_avancadas" = none ∧
    get? result "pesquisa_web_detalhada" = none ∧
    get? result "inteligencia_mercado_ultra" = none ∧
    (∃ l, get? result "insights_exclusivos_real_ultra" = some (.vList l) ∧ l.length = 20) ∧
    pyLen (getD result "insights_exclusivos_ultra" (.vList [])) = .ok 0 ∧
    (∀ now meta, buildMeta now cd result aiSet = .ok meta →
        get? meta "unique_insights_generated" = some (.vNum 0)) := by
  obtain ⟨main, ins, plan, met, tim, mon, hb, hi, hres⟩ := consolidate_ok_shape hok
  have hmain := consolidateBase_basic hb hbase
  subst hres
  have e1 := get?_attachSections_base main cd ins plan met tim mon
    (k := "insights_exclusivos_ultra") (by decide) (by decide) (by decide) (by decide)
    (by decide) (by decide) (by decide) (by decide) (by decide)
  have e2 := get?_attachSections_base main cd ins plan met tim mon
    (k := "plano_implementacao_completo") (by decide) (by decide) (by decide) (by decide)
    (by decide) (by decide) (by decide) (by decide) (by decide)
  have e3 := get?_attachSections_base main cd ins plan met tim mon
    (k := "metricas_sucesso_avancadas") (by decide) (by decide) (by decide) (by decide)
    (by decide) (by decide) (by decide) (by decide) (by decide)
  have e4 := get?_attachSections_base main cd ins plan met tim mon
    (k := "pesquisa_web_detalhada") (by decide) (by decide) (by decide) (by decide)
    (by decide) (by decide) (by decide) (by decide) (by decide)
  have e5 := get?_attachSections_base main cd ins plan met tim mon
    (k := "inteligencia_mercado_ultra") (by decide) (by decide) (by decide) (by decide)
    (by decide) (by decide) (by decide) (by decide) (by decide)
  have hm1 : get? main "insights_exclusivos_ultra" = none := by
    rcases hmain with rfl | rfl <;> rfl
  have hm2 : get? main "plano_implementacao_completo" = none := by
    rcases hmain with rfl | rfl <;> rfl
  have hm3 : get? main "metricas_sucesso_avancadas" = none := by
    rcases hmain with rfl | rfl <;> rfl
  have hm4 : get? main "pesquisa_web_detalhada" = none := by
    rcases hmain with rfl | rfl <;> rfl
  have hm5 : get? main "inteligencia_mercado_ultra" = none := by
    rcases hmain with rfl | rfl <;> rfl
  have k1 := e1.trans hm1
  have hlen : pyLen (getD (attachSections main cd ins plan met tim mon)
      "insights_exclusivos_ultra" (.vList [])) = .ok 0 := by
    simp only [getD, k1]
    rfl
  refine ⟨k1, e2.trans hm2, e3.trans hm3, e4.trans hm4, e5.trans hm5,
    ⟨ins, get?_attachSections_insights main cd ins plan met tim mon, insights_length hi⟩,
    hlen, ?_⟩
  intro now meta hm
  unfold buildMeta at hm
  rcases hd1 : pyLen (getD cd "sources" (.vList [])) with e | ds
  · rw [hd1] at hm; exact absurd hm (fun hh => bindErr hh)
  · rw [hd1, bindOkE] at hm
    rcases hq : _calculate_ultra_quality_score
        (attachSections main cd ins plan met tim mon) with e | q
    · rw [hq] at hm; exact absurd hm (fun hh => bindErr hh)
    · rw [hq, bindOkE, hlen, bindOkE] at hm
      rw [← (Except.ok.injEq _ _).mp hm]
      rfl

/-- The result of consolidating the minimal basic-based document, for the
C4 witness. -/
def c4res : Obj :=
  match _consolidate_ultra_real_analysis [("segmento", .vStr "moda")]
      initialComprehensive [] with
  | .ok r => r
  | .error _ => []

/-- C4 witness: the concrete consolidated document lacks the scorer keys
and its `unique_insights_generated` source count is 0. -/
theorem c4_scorer_key_drift_witness :
    get? c4res "insights_exclusivos_ultra" = none ∧
    get? c4res "pesquisa_web_detalhada" = none ∧
    pyLen (getD c4res "insights_exclusivos_ultra" (.vList [])) = .ok 0 :=
  ⟨(c4_scorer_key_drift [("segmento", .vStr "moda")] initialComprehensive [] c4res
      (Or.inl rfl) (by rfl)).1,
   (c4_scorer_key_drift [("segmento", .vStr "moda")] initialComprehensive [] c4res
      (Or.inl rfl) (by rfl)).2.2.2.1,
   (c4_scorer_key_drift [("segmento", .vStr "moda")] initialComprehensive [] c4res
      (Or.inl rfl) (by rfl)).2.2.2.2.2.2.1⟩

theorem hfEntry_get?_gemini (o : Oracle) (a1 : Obj) :
    get? (hfEntry o a1).2 "gemini_ultra_real" = get? a1 "gemini_ultra_real" := by
  unfold hfEntry
  split
  · rcases o.hfAnalyze with e | v
    · rfl
    · dsimp only
      split
      · exact get?_set_ne (by decide) a1 _
      · rfl
  · rfl

theorem synth_get?_gemini (o : Oracle) (data cd : Obj) :
    get? (_run_multi_ai_ultra_real_analysis o data cd).2 "gemini_ultra_real"
      = get? (hfEntry o (geminiEntry o data cd).2).2 "gemini_ultra_real" := by
  unfold _run_multi_ai_ultra_real_analysis
  rcases hg : geminiEntry o data cd with ⟨glog, a1⟩
  rcases hh : hfEntry o a1 with ⟨hlog, a2⟩
  simp only [hg, hh]
  split
  · exact get?_set_ne (by decide) a2 _
  · rfl

theorem geminiEntry_subst (o : Oracle) (data cd : Obj) (e : PyErr)
    (hp : o.geminiPresent = true) (he : o.gemini = .error e) :
    (geminiEntry o data cd).2
      = Obj.set [] "gemini_ultra_real"
          (.vObj (_generate_basic_real_gemini_analysis data)) := by
  unfold geminiEntry
  rw [hp]
  simp only [if_true]
  rcases hctx : buildSearchContext cd with e' | c
  · rfl
  · rw [he]

theorem consolidateBase_of_entry (data : Obj) {aiSet : Obj} {g : Obj}
    (h : get? aiSet "gemini_ultra_real" = some (.vObj g))
    (hg : truthy (.vObj g) = true) :
    consolidateBase data aiSet = .ok g := by
  unfold consolidateBase
  simp only [getD, h, hg, if_true]

theorem runPhases_ok_shape {o : Oracle} {d : Obj} {sid : Val} {log : List Call}
    {final : Obj} (h : runPhases o d sid = (log, .ok final)) :
    ∃ cd, (_collect_ultra_comprehensive_real_data o d sid).2 = .ok cd ∧
      ∃ res meta,
        _consolidate_ultra_real_analysis d cd
          (_run_multi_ai_ultra_real_analysis o d cd).2 = .ok res ∧
        buildMeta o.now cd res (_run_multi_ai_ultra_real_analysis o d cd).2 = .ok meta ∧
        final = res.set "metadata_ultra_detalhado" (.vObj meta) := by
  unfold runPhases at h
  rcases hc : _collect_ultra_comprehensive_real_data o d sid with ⟨log1, r1⟩
  rw [hc] at h
  rcases r1 with e | cd
  · exact absurd (congrArg Prod.snd h) (by simp)
  · refine ⟨cd, rfl, ?_⟩
    simp only at h
    rcases hsy : _run_multi_ai_ultra_real_analysis o d cd with ⟨log2, aiSet⟩
    rw [hsy] at h
    simp only at h
    have h2 := congrArg Prod.snd h
    simp only at h2
    rcases hcons : _consolidate_ultra_real_analysis d cd aiSet with e | res
    · rw [hcons] at h2; exact absurd h2 (fun hh => bindErr hh)
    · rw [hcons, bindOkE] at h2
      rcases hmeta : buildMeta o.now cd res aiSet with e | meta
      · rw [hmeta] at h2; exact absurd h2 (fun hh => bindErr hh)
      · rw [hmeta, bindOkE] at h2
        refine ⟨res, meta, ?_, ?_, ((Except.ok.injEq _ _).mp h2).symm⟩
        · rfl
        · first | rfl | exact hmeta

/-- C8: if the Gemini client is present but its call raises, the
synthesizer's `gemini_ultra_real` entry is the local basic Gemini
analysis, and (for every request and session) the document returned by
the orchestrator — consolidated or fallback — still carries a non-empty
`avatar_ultra_detalhado` section. -/
theorem c8_gemini_failure_substitution (o : Oracle) (data cd : Obj) (e : PyErr)
    (hp : o.geminiPresent = true) (he : o.gemini = .error e) :
    get? (_run_multi_ai_ultra_real_analysis o data cd).2 "gemini_ultra_real"
      = some (.vObj (_generate_basic_real_gemini_analysis data)) ∧
    ∀ d sid, ∃ av,
      get? (generate_ultra_comprehensive_analysis o d sid).2 "avatar_ultra_detalhado"
        = some av ∧ truthy av = true := by
  have hent : ∀ d' cd' : Obj,
      get? (_run_multi_ai_ultra_real_analysis o d' cd').2 "gemini_ultra_real"
        = some (.vObj (_generate_basic_real_gemini_analysis d')) := by
    intro d' cd'
    rw [synth_get?_gemini, hfEntry_get?_gemini, geminiEntry_subst o d' cd' e hp he]
    exact get?_set_self [] _ _
  refine ⟨hent data cd, ?_⟩
  intro d sid
  unfold generate_ultra_comprehensive_analysis
  rcases hrp : runPhases o d sid with ⟨log, r⟩
  rcases r with e' | final
  · exact fallback_avatar d e' o.now
  · obtain ⟨cd', hcol, res, meta, hcons, hmeta, hfin⟩ := runPhases_ok_shape hrp
    obtain ⟨main, ins, plan, met, tim, mon, hb, hi, hres⟩ := consolidate_ok_shape hcons
    have hmain : main = _generate_basic_real_gemini_analysis d := by
      have := consolidateBase_of_entry d (hent d cd') rfl
      rw [this] at hb
      exact ((Except.ok.injEq _ _).mp hb).symm
    subst hfin
    subst hres
    subst hmain
    obtain ⟨av, hav, htv⟩ : ∃ av, get? (_generate_basic_real_gemini_analysis d)
        "avatar_ultra_detalhado" = some av ∧ truthy av = true := ⟨_, rfl, rfl⟩
    refine ⟨av, ?_, htv⟩
    rw [get?_set_ne (by decide),
      get?_attachSections_base _ cd' ins plan met tim mon (by decide) (by decide)
        (by decide) (by decide) (by decide) (by decide) (by decide) (by decide) (by decide)]
    exact hav

/-- C8 witness: gemini present and raising, concrete request. -/
theorem c8_gemini_failure_substitution_witness :
    get? (_run_multi_ai_ultra_real_analysis
        { oracleStub with geminiPresent := true, gemini := .error "llm down" }
        [("segmento", .vStr "moda")] initialComprehensive).2 "gemini_ultra_real"
      = some (.vObj (_generate_basic_real_gemini_analysis [("segmento", .vStr "moda")])) :=
  (c8_gemini_failure_substitution
    { oracleStub with geminiPresent := true, gemini := .error "llm down" }
    [("segmento", .vStr "moda")] initialComprehensive "llm down" rfl rfl).1

theorem attachStep_get? {o : Oracle} {sid : Val} {cd cd' : Obj}
    (h : (attachStep o sid cd).2 = .ok cd') {k : String}
    (hk1 : k ≠ "attachments") (hk2 : k ≠ "total_content_length")
    (hk3 : k ≠ "real_data_sources") :
    get? cd' k = get? cd k := by
  unfold attachStep at h
  split at h
  · simp only at h
    rcases hat : o.attachments with e | atts
    · rw [hat] at h; exact absurd h (by simp)
    · rw [hat] at h
      simp only at h
      split at h
      · rw [← (Except.ok.injEq _ _).mp h]
      · rcases hpa : processAtts atts "" [] with e | pr
        · rw [hpa] at h; exact absurd h (fun hh => bindErr hh)
        · obtain ⟨combined, groups⟩ := pr
          rw [hpa, bindOkE] at h
          have hset : ∀ X : Obj, (do
              let cd2 ← addCounter X "total_content_length" combined.length
              addCounter cd2 "real_data_sources" atts.length) = Except.ok cd' →
              get? X k = get? cd k → get? cd' k = get? cd k := by
            intro X hX hgX
            rcases hc1 : addCounter X "total_content_length" combined.length with e | cd1
            · rw [hc1] at hX; exact absurd hX (fun hh => bindErr hh)
            · rw [hc1, bindOkE] at hX
              rw [addCounter_get?_ne hX hk3, addCounter_get?_ne hc1 hk2, hgX]
          exact hset _ h (get?_set_ne hk1 cd _)
  · simp only at h
    rw [← (Except.ok.injEq _ _).mp h]

theorem finishCollect_get? {data cd cd2 : Obj} (h : finishCollect data cd = .ok cd2)
    {k : String} (hk1 : k ≠ "market_intelligence") (hk2 : k ≠ "competitor_analysis")
    (hk3 : k ≠ "trend_analysis") :
    get? cd2 k = get? cd k := by
  unfold finishCollect at h
  rcases hm : _gather_ultra_real_market_intelligence data with e | mi
  · rw [hm] at h; exact absurd h (fun hh => bindErr hh)
  · rw [hm, bindOkE] at h
    rcases ht : _analyze_real_market_trends data with e | ta
    · rw [ht] at h; exact absurd h (fun hh => bindErr hh)
    · rw [ht, bindOkE] at h
      rw [← (Except.ok.injEq _ _).mp h]
      rw [get?_set_ne hk3, get?_set_ne hk2, get?_set_ne hk1]

theorem collect_ok_web_research {o : Oracle} {d : Obj} {sid : Val} {cd : Obj}
    (hw : o.websailorAvailable = false)
    (h : (_collect_ultra_comprehensive_real_data o d sid).2 = .ok cd) :
    get? cd "web_research" = some (.vObj []) := by
  unfold _collect_ultra_comprehensive_real_data at h
  rcases ha : attachStep o sid initialComprehensive with ⟨log1, r1⟩
  rw [ha] at h
  simp only at h
  rcases r1 with e | cd1
  · exact absurd h (by simp)
  · rw [hw] at h
    simp only [Bool.false_eq_true, if_false] at h
    have h1 : get? cd1 "web_research" = get? initialComprehensive "web_research" :=
      attachStep_get? (by rw [ha]) (by decide) (by decide) (by decide)
    rw [finishCollect_get? h (by decide) (by decide) (by decide), h1]
    rfl

theorem collect_log_no_research (o : Oracle) (d : Obj) (sid : Val)
    (hw : o.websailorAvailable = false) (q : String) :
    Call.research q ∉ (_collect_ultra_comprehensive_real_data o d sid).1 := by
  unfold _collect_ultra_comprehensive_real_data
  rcases ha : attachStep o sid initialComprehensive with ⟨log1, r1⟩
  have hlog := attachStep_log o sid initialComprehensive
  rw [ha] at hlog
  simp only at hlog
  rcases r1 with e | cd1
  · show Call.research q ∉ log1
    rcases hlog with rfl | rfl <;> simp
  · rw [hw]
    simp only [Bool.false_eq_true, if_false]
    show Call.research q ∉ log1
    rcases hlog with rfl | rfl <;> simp

theorem synth_entry_cases (o : Oracle) (data cd : Obj) :
    get? (_run_multi_ai_ultra_real_analysis o data cd).2 "gemini_ultra_real" = none ∨
    get? (_run_multi_ai_ultra_real_analysis o data cd).2 "gemini_ultra_real"
      = some (.vObj (_generate_basic_real_gemini_analysis data)) ∨
    ∃ g : Obj, o.gemini = .ok g ∧
      get? (_run_multi_ai_ultra_real_analysis o data cd).2 "gemini_ultra_real"
        = some (.vObj g) := by
  rw [synth_get?_gemini, hfEntry_get?_gemini]
  unfold geminiEntry
  split
  · rcases hctx : buildSearchContext cd with e | c
    · right; left
      exact get?_set_self [] _ _
    · rcases hgem : o.gemini with e | g
      · right; left
        exact get?_set_self [] _ _
      · right; right
        exact ⟨g, rfl, get?_set_self [] _ _⟩
  · left; rfl

theorem consolidateBase_no_web {data aiSet main : Obj}
    (hb : consolidateBase data aiSet = .ok main)
    (hent : get? aiSet "gemini_ultra_real" = none ∨
      get? aiSet "gemini_ultra_real"
        = some (.vObj (_generate_basic_real_gemini_analysis data)) ∨
      ∃ g : Obj, get? aiSet "gemini_ultra_real" = some (.vObj g) ∧
        get? g "pesquisa_web_real_detalhada" = none) :
    get? main "pesquisa_web_real_detalhada" = none := by
  rcases hent with h | h | ⟨g, h, hgw⟩
  · rcases consolidateBase_basic hb (Or.inl h) with rfl | rfl <;> rfl
  · rcases consolidateBase_basic hb (Or.inr h) with rfl | rfl <;> rfl
  · unfold consolidateBase at hb
    simp only [getD, h] at hb
    by_cases ht : truthy (.vObj g) = true
    · simp only [ht, if_true] at hb
      rw [← (Except.ok.injEq _ _).mp hb]
      exact hgw
    · have ht' : truthy (.vObj g) = false := by simpa using ht
      simp only [ht', Bool.false_eq_true, if_false] at hb
      rw [← (Except.ok.injEq _ _).mp hb]
      rfl

theorem get?_attachSections_no_web (main cd : Obj) (ins : List Val)
    (plan met tim mon : Obj)
    (hw : getD cd "web_research" .vNull = .vObj []) :
    get? (attachSections main cd ins plan met tim mon) "pesquisa_web_real_detalhada"
      = get? main "pesquisa_web_real_detalhada" := by
  simp only [attachSections, hw]
  rw [get?_set_ne (by decide), get?_set_ne (by decide), get?_set_ne (by decide),
    get?_set_ne (by decide), get?_set_ne (by decide)]
  rw [if_neg (show ¬ (truthy (Val.vObj ([] : Obj)) = true) by decide)]
  repeat' split
  all_goals simp only [
    get?_set_ne (show ("pesquisa_web_real_detalhada" : String)
      ≠ "inteligencia_mercado_real_ultra" from by decide),
    get?_set_ne (show ("pesquisa_web_real_detalhada" : String)
      ≠ "analise_concorrencia_real_ultra" from by decide),
    get?_set_ne (show ("pesquisa_web_real_detalhada" : String)
      ≠ "analise_tendencias_real_ultra" from by decide)]

theorem generate_log (o : Oracle) (d : Obj) (sid : Val) :
    (generate_ultra_comprehensive_analysis o d sid).1 = (runPhases o d sid).1 := by
  unfold generate_ultra_comprehensive_analysis
  rcases hr : runPhases o d sid with ⟨log, r⟩
  rcases r with e | f <;> rfl

theorem runPhases_log_no_research (o : Oracle) (d : Obj) (sid : Val)
    (hw : o.websailorAvailable = false) (q : String) :
    Call.research q ∉ (runPhases o d sid).1 := by
  unfold runPhases
  rcases hc : _collect_ultra_comprehensive_real_data o d sid with ⟨log1, r1⟩
  have h1 : Call.research q ∉ log1 := by
    have := collect_log_no_research o d sid hw q
    rw [hc] at this
    simpa using this
  rcases r1 with e | cd
  · simpa using h1
  · simp only
    rcases hsy : _run_multi_ai_ultra_real_analysis o d cd with ⟨log2, aiSet⟩
    have h2 := synth_log_no_research o d cd q
    rw [hsy] at h2
    simp only at h2
    show Call.research q ∉ log1 ++ log2
    simp only [List.mem_append, not_or]
    exact ⟨h1, h2⟩

theorem generate_no_web (o : Oracle) (d : Obj) (sid : Val)
    (hw : o.websailorAvailable = false)
    (hg : ∀ g : Obj, o.gemini = .ok g → get? g "pesquisa_web_real_detalhada" = none) :
    get? (generate_ultra_comprehensive_analysis o d sid).2
        "pesquisa_web_real_detalhada" = none ∧
    (get? (generate_ultra_comprehensive_analysis o d sid).2
        "metadata_ultra_detalhado").isSome = true := by
  unfold generate_ultra_comprehensive_analysis
  rcases hrp : runPhases o d sid with ⟨log, r⟩
  rcases r with e | final
  · exact ⟨fallback_no_web _ _ _, by rw [fallback_meta]; rfl⟩
  · obtain ⟨cd, hcol, res, meta, hcons, hmeta, hfin⟩ := runPhases_ok_shape hrp
    obtain ⟨main, ins, plan, met, tim, mon, hb, hi, hres⟩ := consolidate_ok_shape hcons
    have hwr : getD cd "web_research" .vNull = .vObj [] := by
      simp only [getD, collect_ok_web_research hw hcol]
    have hmw : get? main "pesquisa_web_real_detalhada" = none := by
      apply consolidateBase_no_web hb
      rcases synth_entry_cases o d cd with h | h | ⟨g, hgem, h⟩
      · exact Or.inl h
      · exact Or.inr (Or.inl h)
      · exact Or.inr (Or.inr ⟨g, h, hg g hgem⟩)
    subst hres
    subst hfin
    constructor
    · rw [get?_set_ne (by decide),
        get?_attachSections_no_web main cd ins plan met tim mon hwr]
      exact hmw
    · rw [get?_set_self]
      rfl

/-- C9: when the web-research collaborator reports unavailable, the
endpoint issues zero web-research queries (no `research` call appears in
the collaborator log), still answers 200, and the body — consolidated or
fallback — carries no `pesquisa_web_real_detalhada` section (provided the
raw Gemini output, an external artifact, does not itself carry that key)
while still carrying the `metadata_ultra_detalhado` block of a complete
result. -/
theorem c9_websailor_unavailable (o : Oracle) (d : Obj)
    (hw : o.websailorAvailable = false)
    (hseg : truthy (getD d "segmento" .vNull) = true)
    (hg : ∀ g : Obj, o.gemini = .ok g → get? g "pesquisa_web_real_detalhada" = none) :
    (∀ q, Call.research q ∉ (analyze_market o (some (.vObj d))).1) ∧
    (analyze_market o (some (.vObj d))).2.1 = 200 ∧
    ∃ b, (analyze_market o (some (.vObj d))).2.2 = .vObj b ∧
      get? b "pesquisa_web_real_detalhada" = none ∧
      (get? b "metadata_ultra_detalhado").isSome = true := by
  rw [analyze_market_valid o d hseg]
  have hnw := generate_no_web o (processNumericFields d)
    (sessionOf o (processNumericFields d)) hw hg
  refine ⟨?_, rfl, _, rfl, ?_, ?_⟩
  · intro q
    have hga := runPhases_log_no_research o (processNumericFields d)
      (sessionOf o (processNumericFields d)) hw q
    rw [← generate_log] at hga
    rcases persistStep_log o (generate_ultra_comprehensive_analysis o
        (processNumericFields d) (sessionOf o (processNumericFields d))).2 with hp | hp <;>
      simp [hp, List.mem_append, hga]
  · rw [persistStep_get? o _ (by decide)]
    exact hnw.1
  · rw [persistStep_get? o _ (by decide)]
    exact hnw.2

/-- C9 witness: the benign environment (websailor unavailable, no Gemini)
at a concrete request. -/
theorem c9_websailor_unavailable_witness :
    (analyze_market oracleStub (some (.vObj [("segmento", .vStr "moda")]))).2.1 = 200 :=
  (c9_websailor_unavailable oracleStub [("segmento", .vStr "moda")] rfl rfl
    (fun g hgem => by
      have : g = ([] : Obj) := ((Except.ok.injEq _ _).mp hgem).symm
      rw [this]
      rfl)).2.1

end RatCompute
